import Mathlib

/-!
Verification of the data-joining and derived-metrics core of the DC-Dashboard
repository (src/js/main.js), as a shallow embedding in Lean 4.

Modelling conventions:
* JavaScript numbers are modelled as `ℚ` (the claims under study concern
  definedness structure, exact arithmetic and comparisons, not float rounding).
* A property that may be `undefined` is an `Option`; `none` is `undefined`.
* JavaScript truthiness on numbers (`0`, `NaN`, `undefined` are falsy) is
  `qTruthy`; on strings (`""`, `undefined` falsy) it is `sTruthy`.
* `a || b` on such optional values is `jsOrQ`/`jsOrS`; `a || b || lit` with a
  literal default is `qSel`/`sSel`.
* `Math.round` (round half toward +infinity) is `jsRound`; `Math.floor` is
  `Int.floor`.
* Mutation of `dataState` is modelled by explicit state passing: a function
  that reads but never writes the store is given the store and returns it
  unchanged exactly when the source never assigns into it.
* `Math.random()` is an oracle argument `rnd : ℕ → ℚ` giving the value drawn
  for the feature at each index (the source draws one number per unmatched
  counter feature).
-/

/-- JS truthiness of a possibly-undefined number: `undefined` and `0` are
falsy (NaN is not modelled; a failed `parseFloat` is represented as `none`). -/
def qTruthy : Option ℚ → Bool
  | none => false
  | some q => q != 0

/-- JS truthiness of a possibly-undefined string: `undefined` and `""` are falsy. -/
def sTruthy : Option String → Bool
  | none => false
  | some s => s != ""

/-- JS `a || b` on two possibly-undefined numbers. -/
def jsOrQ (a b : Option ℚ) : Option ℚ := if qTruthy a then a else b

/-- JS `a || b` on two possibly-undefined strings. -/
def jsOrS (a b : Option String) : Option String := if sTruthy a then a else b

/-- JS `a || b || d` where `d` is a numeric literal: the first truthy value. -/
def qSel (a b : Option ℚ) (d : ℚ) : ℚ :=
  if qTruthy a then a.getD 0 else if qTruthy b then b.getD 0 else d

/-- JS `a || b || d` where `d` is a string literal: the first truthy value. -/
def sSel (a b : Option String) (d : String) : String :=
  if sTruthy a then a.getD "" else if sTruthy b then b.getD "" else d

/-- JS `Math.round`: rounds half toward positive infinity. -/
def jsRound (q : ℚ) : ℤ := ⌊q + 1/2⌋

/-! ## Data model (src/js/main.js geometry and property bags) -/

/-- Geometry of a road feature, as read by the midpoint step of
`processRoadNetworkData` (main.js lines 3121-3145).  Coordinates are
`(lng, lat)` pairs, as in GeoJSON coordinate order. -/
inductive Geometry where
  | lineString (coords : List (ℚ × ℚ))
  | multiLineString (lines : List (List (ℚ × ℚ)))
  | otherGeom (coords0 : Option (ℚ × ℚ))
  deriving DecidableEq

/-- Property bag of a road-network feature: every property name that the core
pipeline (`processRoadNetworkData`, `calculateStatistics`, filtering) reads or
writes on a road feature. `pred`/`predicted` etc. keep the source names. -/
structure RoadProps where
  SUBBLOCKKEY : Option String := none
  SUBBLOK : Option String := none
  FULLNAME : Option String := none
  RD_CLASS : Option String := none
  NEIGHBORHOOD : Option String := none
  SEG_LEN : Option ℚ := none
  segment_length : Option ℚ := none
  BIKE_FT : Option String := none
  bike_facility_type : Option String := none
  degree_max : Option ℚ := none
  betweenness_max : Option ℚ := none
  closeness_max : Option ℚ := none
  DEGREE : Option ℚ := none
  BETWEEN : Option ℚ := none
  CLOSENESS : Option ℚ := none
  populationE : Option ℚ := none
  median_incomeE : Option ℚ := none
  commute_bicycleE : Option ℚ := none
  edu_bachelors_plusE : Option ℚ := none
  rent_percentE : Option ℚ := none
  median_ageE : Option ℚ := none
  POPULATION : Option ℚ := none
  MEDIAN_INCOME : Option ℚ := none
  COMMUTE_TIME : Option ℚ := none
  BIKE_COMMUTE : Option ℚ := none
  EDUCATION : Option ℚ := none
  WHITE_PERCENTAGE : Option ℚ := none
  RENT_PRICE : Option ℚ := none
  MEDIAN_AGE : Option ℚ := none
  GEOID : Option String := none
  predicted : Option ℚ := none
  predicted_alt : Option ℚ := none
  OBSERVED_COUNT : Option ℚ := none
  COUNTER_TYPE : Option String := none
  residual : Option ℚ := none
  percent_error : Option ℚ := none
  traffic_level : Option String := none
  lat : Option ℚ := none
  lng : Option ℚ := none
  deriving DecidableEq

/-- A road-network feature: property bag plus optional geometry. -/
structure RoadFeature where
  properties : RoadProps
  geometry : Option Geometry := none
  deriving DecidableEq

/-- Property bag of a counter-point feature. -/
structure CounterProps where
  SUBBLOCKKEY : Option String := none
  Site_Nm : Option String := none
  COUNT : Option ℚ := none
  OBSERVED_COUNT : Option ℚ := none
  COUNTER_TYPE : Option String := none
  cntr_ty : Option String := none
  NEIGHBORHOOD : Option String := none
  deriving DecidableEq

/-- A counter-point feature (geometry is not read by the core pipeline on
counters, so only the property bag is modelled). -/
structure CounterFeature where
  properties : CounterProps
  deriving DecidableEq

/-- Property bag of a census feature, with the abbreviated source column names. -/
structure CensusProps where
  SUBBLOC : Option String := none
  GEOID : Option String := none
  popltnE : Option ℚ := none
  mdn_ncE : Option ℚ := none
  cmmt__E : Option ℚ := none
  cmmt_bE : Option ℚ := none
  ed_bc_E : Option ℚ := none
  pct_white : Option ℚ := none
  rnt_prE : Option ℚ := none
  medn_gE : Option ℚ := none
  deriving DecidableEq

/-- A census polygon feature (polygon geometry is never read by the core). -/
structure CensusFeature where
  properties : CensusProps
  deriving DecidableEq

/-- A neighborhood-boundary feature (only naming properties are read). -/
structure NeighborhoodFeature where
  DC_HPN_NAME : Option String := none
  NAME : Option String := none
  NEIGHBORHOOD : Option String := none
  GEOID : Option String := none
  deriving DecidableEq

/-- One parsed row of the spatial-predictions CSV.  `pred` is the source
column named `.pred`, `pred1` the column `.pred.1`, `SiteName` the column
`Site.Name` (Lean identifiers cannot contain the dots). -/
structure PredRow where
  SUBBLOCKKEY : Option String := none
  pred : Option ℚ := none
  pred1 : Option ℚ := none
  predicted : Option ℚ := none
  predicted_alt : Option ℚ := none
  observed : Option ℚ := none
  OBSERVED_COUNT : Option ℚ := none
  SiteName : Option String := none
  deriving DecidableEq

/-- One parsed row of the temporal-predictions CSV. -/
structure TemporalRow where
  GEOID : Option String := none
  dotw : Option ℕ := none
  hour : Option ℕ := none
  hr_pred : Option ℚ := none
  deriving DecidableEq

/-- Day-of-week to hourly-values mapping for one segment key (insertion
ordered, one entry per day). -/
def DayTable := List (ℕ × List ℚ)
deriving instance DecidableEq for DayTable

/-- The `dataState.statistics` object (main.js lines 3380-3393 for the computed
shape, 2648-2660 for the initial shape). -/
structure Statistics where
  totalObserved : ℚ := 0
  totalEstimated : ℚ := 0
  averagePredicted : ℚ := 0
  observedSegments : ℕ := 0
  bikeLaneCoverage : ℤ := 0
  mostActiveArea : String := ""
  busyHours : List ℕ := []
  modelAccuracy : ℤ := 0
  averageIncome : ℤ := 0
  averagePopulation : ℤ := 0
  averageBikeCommute : ℤ := 0
  averageEducation : ℤ := 0
  deriving DecidableEq

/-- The module-level `dataState` store (main.js lines 2639-2663). -/
structure DataState where
  isInitialized : Bool := false
  roadNetworkData : Option (List RoadFeature) := none
  counterPointsData : Option (List CounterFeature) := none
  neighborhoodBoundaries : Option (List NeighborhoodFeature) := none
  predictionsData : Option (List PredRow) := none
  censusData : Option (List CensusFeature) := none
  temporalPredictions : List (String × DayTable) := []
  statistics : Statistics := {}
  neighborhoodsList : List String := []
  dataVersion : String := "1.0"
  deriving DecidableEq

/-- The initial `dataState` literal of the source. -/
def initialDataState : DataState := {}

/-! ## Lookup builders (main.js lines 3160-3240)

JS objects built by `forEach` assignment are modelled as functions
`String → Option entry`, updated functionally; a later row overwrites an
earlier one at the same key (last-write-wins), and a key never written maps
to `none`.  An object-lookup truthiness test (`if (lookup[key])`) is `isSome`
in the model, because every stored entry is a JS object, hence truthy. -/

/-- Value stored by `createPredictedLookup` for one key. -/
structure PredEntry where
  predicted : ℚ
  predicted_alt : ℚ
  deriving DecidableEq

/-- `createPredictedLookup` (main.js 3160-3176): for each row with a truthy
`SUBBLOCKKEY`, store `parseFloat(row['.pred']) || parseFloat(row.predicted) || 0`
and the analogous alternate value. -/
def createPredictedLookup (rows : List PredRow) : String → Option PredEntry :=
  rows.foldl
    (fun acc row =>
      if sTruthy row.SUBBLOCKKEY then
        fun k =>
          if row.SUBBLOCKKEY = some k then
            some { predicted := qSel row.pred row.predicted 0
                   predicted_alt := qSel row.pred1 row.predicted_alt 0 }
          else acc k
      else acc)
    (fun _ => none)

/-- Value stored by `createCounterLookup` for one key. -/
structure CounterEntry where
  OBSERVED_COUNT : ℚ
  COUNTER_TYPE : String
  deriving DecidableEq

/-- `createCounterLookup` (main.js 3183-3209): keyed by `SUBBLOCKKEY` when
truthy, else by `Site_Nm` when truthy; value is
`props.COUNT || props.OBSERVED_COUNT || 0` and
`props.COUNTER_TYPE || props.cntr_ty || "UNKNOWN"`. -/
def createCounterLookup (feats : List CounterFeature) : String → Option CounterEntry :=
  feats.foldl
    (fun acc f =>
      let p := f.properties
      let entry : CounterEntry :=
        { OBSERVED_COUNT := qSel p.COUNT p.OBSERVED_COUNT 0
          COUNTER_TYPE := sSel p.COUNTER_TYPE p.cntr_ty "UNKNOWN" }
      if sTruthy p.SUBBLOCKKEY then
        fun k => if p.SUBBLOCKKEY = some k then some entry else acc k
      else if sTruthy p.Site_Nm then
        fun k => if p.Site_Nm = some k then some entry else acc k
      else acc)
    (fun _ => none)

/-- Value stored by `createCensusLookup` for one key: the attribute bundle
copied verbatim from the census feature (fields may be `undefined`). -/
structure CensusEntry where
  GEOID : Option String
  POPULATION : Option ℚ
  MEDIAN_INCOME : Option ℚ
  COMMUTE_TIME : Option ℚ
  BIKE_COMMUTE : Option ℚ
  EDUCATION : Option ℚ
  WHITE_PERCENTAGE : Option ℚ
  RENT_PRICE : Option ℚ
  MEDIAN_AGE : Option ℚ
  deriving DecidableEq

/-- `createCensusLookup` (main.js 3216-3240): keyed by truthy `SUBBLOC`. -/
def createCensusLookup (feats : List CensusFeature) : String → Option CensusEntry :=
  feats.foldl
    (fun acc f =>
      let p := f.properties
      if sTruthy p.SUBBLOC then
        fun k =>
          if p.SUBBLOC = some k then
            some { GEOID := p.GEOID, POPULATION := p.popltnE,
                   MEDIAN_INCOME := p.mdn_ncE, COMMUTE_TIME := p.cmmt__E,
                   BIKE_COMMUTE := p.cmmt_bE, EDUCATION := p.ed_bc_E,
                   WHITE_PERCENTAGE := p.pct_white, RENT_PRICE := p.rnt_prE,
                   MEDIAN_AGE := p.medn_gE }
          else acc k
      else acc)
    (fun _ => none)

/-! ## Join engine: `processRoadNetworkData` (main.js 3043-3153)

The per-feature loop body is split into named steps mirroring the source
blocks; `enrichRoadFeature` chains them in source order. -/

/-- Lines 3067-3071: attach `predicted`/`predicted_alt` when the key is found
in the predicted lookup (`e?` is the lookup result for the segment key). -/
def attachPredicted (e? : Option PredEntry) (p : RoadProps) : RoadProps :=
  match e? with
  | some e => { p with predicted := some e.predicted, predicted_alt := some e.predicted_alt }
  | none => p

/-- Lines 3074-3078: attach `OBSERVED_COUNT`/`COUNTER_TYPE` from the counter
lookup. -/
def attachCounter (e? : Option CounterEntry) (p : RoadProps) : RoadProps :=
  match e? with
  | some e => { p with OBSERVED_COUNT := some e.OBSERVED_COUNT, COUNTER_TYPE := some e.COUNTER_TYPE }
  | none => p

/-- Lines 3081-3084: `Object.assign(props, censusLookup[key])` — every field of
the census entry is written onto the road properties (a field that is
`undefined` in the entry overwrites to `undefined`, as `Object.assign` copies
the key with value `undefined`). -/
def attachCensus (e? : Option CensusEntry) (p : RoadProps) : RoadProps :=
  match e? with
  | some e =>
      { p with GEOID := e.GEOID, POPULATION := e.POPULATION,
               MEDIAN_INCOME := e.MEDIAN_INCOME, COMMUTE_TIME := e.COMMUTE_TIME,
               BIKE_COMMUTE := e.BIKE_COMMUTE, EDUCATION := e.EDUCATION,
               WHITE_PERCENTAGE := e.WHITE_PERCENTAGE, RENT_PRICE := e.RENT_PRICE,
               MEDIAN_AGE := e.MEDIAN_AGE }
  | none => p

/-- Lines 3087-3094: `props.DEGREE = props.degree_max || 0` followed by
`props.DEGREE = Number(props.DEGREE || 0)` (and likewise for the other two
centrality fields).  `Number` applied to the number just assigned is the
identity, so the two assignments collapse to one in the model. -/
def coerceCentrality (p : RoadProps) : RoadProps :=
  { p with DEGREE := some (qSel p.degree_max none 0)
           BETWEEN := some (qSel p.betweenness_max none 0)
           CLOSENESS := some (qSel p.closeness_max none 0) }

/-- Lines 3097-3102: demographic coercions `props.X = props.xE || props.X || 0`. -/
def coerceDemographics (p : RoadProps) : RoadProps :=
  { p with POPULATION := some (qSel p.populationE p.POPULATION 0)
           MEDIAN_INCOME := some (qSel p.median_incomeE p.MEDIAN_INCOME 0)
           BIKE_COMMUTE := some (qSel p.commute_bicycleE p.BIKE_COMMUTE 0)
           EDUCATION := some (qSel p.edu_bachelors_plusE p.EDUCATION 0)
           RENT_PRICE := some (qSel p.rent_percentE p.RENT_PRICE 0)
           MEDIAN_AGE := some (qSel p.median_ageE p.MEDIAN_AGE 0) }

/-- Lines 3104-3107: residual and percent error, guarded by JS truthiness of
both `OBSERVED_COUNT` and `predicted`.  The source computes
`props.percent_error = (props.residual / props.OBSERVED_COUNT) * 100` from the
just-assigned residual. -/
def computeResidual (p : RoadProps) : RoadProps :=
  if qTruthy p.OBSERVED_COUNT && qTruthy p.predicted then
    let o := p.OBSERVED_COUNT.getD 0
    let pr := p.predicted.getD 0
    { p with residual := some (o - pr), percent_error := some ((o - pr) / o * 100) }
  else p

/-- Lines 3110-3118: traffic-level bucket from `predicted`, guarded by JS
truthiness of `predicted`. -/
def computeTrafficLevel (p : RoadProps) : RoadProps :=
  if qTruthy p.predicted then
    let pr := p.predicted.getD 0
    { p with traffic_level := some (if pr ≥ 80 then "high"
        else if pr ≥ 40 then "medium" else "low") }
  else p

/-- Lines 3121-3145: the representative midpoint of the geometry.  For a
`MultiLineString`, indexing a missing middle line throws inside the
`try`/`catch`, leaving `lat`/`lng` unassigned — modelled by the `Option.bind`. -/
def midPointOf : Geometry → Option (ℚ × ℚ)
  | Geometry.lineString coords => coords.get? (coords.length / 2)
  | Geometry.multiLineString lines =>
      (lines.get? (lines.length / 2)).bind fun line => line.get? (line.length / 2)
  | Geometry.otherGeom c0 => c0

/-- Lines 3121-3145 continued: write `lat`/`lng` when a midpoint was found. -/
def attachMidpoint (g? : Option Geometry) (p : RoadProps) : RoadProps :=
  match g? with
  | none => p
  | some g =>
      match midPointOf g with
      | some mp => { p with lat := some mp.2, lng := some mp.1 }
      | none => p

/-- Steps 3067-3102 of the loop body in source order: the three lookup
attachments followed by the centrality and demographic coercions (everything
before the residual computation). -/
def enrichPre (pl : String → Option PredEntry) (cl : String → Option CounterEntry)
    (xl : String → Option CensusEntry) (k : String) (p : RoadProps) : RoadProps :=
  coerceDemographics
    (coerceCentrality
      (attachCensus (xl k)
        (attachCounter (cl k)
          (attachPredicted (pl k) p))))

/-- The loop body of `processRoadNetworkData` (main.js 3061-3147): a segment
whose resolved key (`SUBBLOCKKEY || SUBBLOK`) is not truthy is passed through
unenriched. -/
def enrichRoadFeature (pl : String → Option PredEntry)
    (cl : String → Option CounterEntry) (xl : String → Option CensusEntry)
    (f : RoadFeature) : RoadFeature :=
  let subblockKey := jsOrS f.properties.SUBBLOCKKEY f.properties.SUBBLOK
  if sTruthy subblockKey then
    let k := subblockKey.getD ""
    { f with properties := (attachMidpoint f.geometry
          (computeTrafficLevel
            (computeResidual
              (enrichPre pl cl xl k f.properties)))) }
  else f

/-- `processRoadNetworkData` (main.js 3043-3153): build the three lookups and
enrich every road feature in place (modelled as returning the new list). -/
def processRoadNetworkData (roads : List RoadFeature) (counters : List CounterFeature)
    (predictedData : List PredRow) (census : List CensusFeature) : List RoadFeature :=
  let predictedLookup := createPredictedLookup predictedData
  let counterLookup := createCounterLookup counters
  let censusLookup := createCensusLookup census
  roads.map (enrichRoadFeature predictedLookup counterLookup censusLookup)

/-! ## Counter-update step of `processData`
(`updateCounterPointsWithObservedData`, main.js 2809-2845) -/

/-- Lines 2813-2820: the `observedCountMap` built from the predictions rows;
a row contributes when its `SUBBLOCKKEY` is truthy and
`row.observed || row.OBSERVED_COUNT || row['.pred']` is truthy, and stores
`parseFloat` of that selected value (`parseFloat` of a number is the number). -/
def observedCountMap (rows : List PredRow) : String → Option ℚ :=
  rows.foldl
    (fun acc row =>
      let sel := jsOrQ row.observed (jsOrQ row.OBSERVED_COUNT row.pred)
      if sTruthy row.SUBBLOCKKEY && qTruthy sel then
        fun k => if row.SUBBLOCKKEY = some k then some (sel.getD 0) else acc k
      else acc)
    (fun _ => none)

/-- Lines 2828-2841, body for one counter feature: `r` is the value of the
`Math.random()` call made for this feature (used only on the unmatched,
untruthy-`COUNT` path; `Math.floor(r * 80) + 20`). -/
def updateCounterFeature (m : String → Option ℚ) (r : ℚ) (f : CounterFeature) :
    CounterFeature :=
  let p := f.properties
  let key := jsOrS p.SUBBLOCKKEY p.Site_Nm
  if sTruthy key && qTruthy (m (key.getD "")) then
    let w := (m (key.getD "")).getD 0
    { properties := { p with COUNT := some w, OBSERVED_COUNT := some w } }
  else
    let c : ℚ := if qTruthy p.COUNT then p.COUNT.getD 0
                 else ((⌊r * 80⌋ + 20 : ℤ) : ℚ)
    { properties := { p with COUNT := some c, OBSERVED_COUNT := some c } }

/-- The `forEach` over counter features, threading the random oracle by
feature index starting at `i`. -/
def updateCounterFeatures (m : String → Option ℚ) (rnd : ℕ → ℚ) :
    ℕ → List CounterFeature → List CounterFeature
  | _, [] => []
  | i, f :: rest =>
      updateCounterFeature m (rnd i) f :: updateCounterFeatures m rnd (i + 1) rest

/-- `updateCounterPointsWithObservedData` (main.js 2809-2845). -/
def updateCounterPointsWithObservedData (rows : List PredRow)
    (counters : List CounterFeature) (rnd : ℕ → ℚ) : List CounterFeature :=
  updateCounterFeatures (observedCountMap rows) rnd 0 counters

/-! ## Aggregator: `calculateStatistics` (main.js 3270-3396)

The single `forEach` pass is a `List.foldl` over an accumulator record; the
loop body is split into named sub-steps mirroring the source blocks. -/

/-- Accumulators initialised at main.js 3271-3288. -/
structure StatAcc where
  observedTotal : ℚ := 0
  estimatedTotal : ℚ := 0
  estimatedCount : ℕ := 0
  observedSegments : ℕ := 0
  bikePathLength : ℚ := 0
  totalRoadLength : ℚ := 0
  neighborhoodCounts : List (String × ℚ) := []
  totalIncome : ℚ := 0
  incomeCount : ℕ := 0
  totalPopulation : ℚ := 0
  populationCount : ℕ := 0
  totalBikeCommute : ℚ := 0
  bikeCommuteCount : ℕ := 0
  totalEducation : ℚ := 0
  educationCount : ℕ := 0
  deriving DecidableEq

/-- Lines 3296-3304: observed and predicted totals. -/
def statStepCounts (a : StatAcc) (p : RoadProps) : StatAcc :=
  let a1 := if qTruthy p.OBSERVED_COUNT then
              { a with observedTotal := a.observedTotal + p.OBSERVED_COUNT.getD 0
                       observedSegments := a.observedSegments + 1 }
            else a
  if qTruthy p.predicted then
    { a1 with estimatedTotal := a1.estimatedTotal + p.predicted.getD 0
              estimatedCount := a1.estimatedCount + 1 }
  else a1

/-- The resolved segment length `props.SEG_LEN || props.segment_length || 0`. -/
def segLenOf (p : RoadProps) : ℚ := qSel p.SEG_LEN p.segment_length 0

/-- The resolved facility `props.BIKE_FT || props.bike_facility_type || ''`. -/
def bikeFacilityOf (p : RoadProps) : String := sSel p.BIKE_FT p.bike_facility_type ""

/-- The guard of the length block (line 3307): `SEG_LEN || segment_length`. -/
def segLenTruthy (p : RoadProps) : Bool :=
  qTruthy p.SEG_LEN || qTruthy p.segment_length

/-- Line 3313: a segment counts toward bike-path length when the resolved
facility is truthy and neither `"None"` nor `"NA"`. -/
def bikeFacilityCounts (p : RoadProps) : Bool :=
  let bikeFacility := bikeFacilityOf p
  bikeFacility != "" && bikeFacility != "None" && bikeFacility != "NA"

/-- Lines 3306-3316: total road length and bike-path length. -/
def statStepLength (a : StatAcc) (p : RoadProps) : StatAcc :=
  if segLenTruthy p then
    let segLength := segLenOf p
    let a1 := { a with totalRoadLength := a.totalRoadLength + segLength }
    if bikeFacilityCounts p then
      { a1 with bikePathLength := a1.bikePathLength + segLength }
    else a1
  else a

/-- In-place update of the `neighborhoodCounts` object:
`counts[n] = (counts[n] || 0) + v`. -/
def assocAdd : List (String × ℚ) → String → ℚ → List (String × ℚ)
  | [], k, v => [(k, v)]
  | (k1, v1) :: rest, k, v =>
      if k1 = k then (k1, v1 + v) :: rest else (k1, v1) :: assocAdd rest k v

/-- Lines 3318-3322: per-neighborhood activity counts, keyed by truthy
`NEIGHBORHOOD`, adding `OBSERVED_COUNT || predicted || 0`. -/
def statStepNeighborhood (a : StatAcc) (p : RoadProps) : StatAcc :=
  if sTruthy p.NEIGHBORHOOD then
    { a with neighborhoodCounts := (assocAdd a.neighborhoodCounts
        (p.NEIGHBORHOOD.getD "") (qSel p.OBSERVED_COUNT p.predicted 0)) }
  else a

/-- Lines 3325-3328: income accumulator. -/
def statStepIncome (a : StatAcc) (p : RoadProps) : StatAcc :=
  if qTruthy p.MEDIAN_INCOME || qTruthy p.median_incomeE then
    { a with totalIncome := a.totalIncome + qSel p.MEDIAN_INCOME p.median_incomeE 0
             incomeCount := a.incomeCount + 1 }
  else a

/-- Lines 3330-3333: population accumulator. -/
def statStepPopulation (a : StatAcc) (p : RoadProps) : StatAcc :=
  if qTruthy p.POPULATION || qTruthy p.populationE then
    { a with totalPopulation := a.totalPopulation + qSel p.POPULATION p.populationE 0
             populationCount := a.populationCount + 1 }
  else a

/-- Lines 3335-3338: bike-commute accumulator. -/
def statStepBikeCommute (a : StatAcc) (p : RoadProps) : StatAcc :=
  if qTruthy p.BIKE_COMMUTE || qTruthy p.commute_bicycleE then
    { a with totalBikeCommute := a.totalBikeCommute + qSel p.BIKE_COMMUTE p.commute_bicycleE 0
             bikeCommuteCount := a.bikeCommuteCount + 1 }
  else a

/-- Lines 3340-3343: education accumulator. -/
def statStepEducation (a : StatAcc) (p : RoadProps) : StatAcc :=
  if qTruthy p.EDUCATION || qTruthy p.edu_bachelors_plusE then
    { a with totalEducation := a.totalEducation + qSel p.EDUCATION p.edu_bachelors_plusE 0
             educationCount := a.educationCount + 1 }
  else a

/-- One iteration of the first `forEach` of `calculateStatistics`
(main.js 3292-3344). -/
def statStep (a : StatAcc) (f : RoadFeature) : StatAcc :=
  let p := f.properties
  statStepEducation
    (statStepBikeCommute
      (statStepPopulation
        (statStepIncome
          (statStepNeighborhood (statStepLength (statStepCounts a p) p) p) p) p) p) p

/-- Lines 3347-3355: the most-active neighborhood, strict-`>` scan starting
from `("Unknown", 0)`. -/
def mostActiveOf (counts : List (String × ℚ)) : String :=
  (counts.foldl (fun best e => if e.2 > best.2 then e else best) ("Unknown", 0)).1

/-- Lines 3360-3377: the model-accuracy second pass. -/
def accuracyAcc (feats : List RoadFeature) : ℚ × ℕ :=
  feats.foldl
    (fun acc f =>
      let p := f.properties
      if qTruthy p.OBSERVED_COUNT && qTruthy p.predicted then
        (acc.1 + |p.OBSERVED_COUNT.getD 0 - p.predicted.getD 0| / p.OBSERVED_COUNT.getD 0,
         acc.2 + 1)
      else acc)
    (0, 0)

/-- `calculateStatistics` (main.js 3270-3396), as a function of the road
features read from the store (`dataState.roadNetworkData`; when the store
holds no road data every accumulator keeps its initial value, which is the
same as running on the empty list). -/
def calculateStatistics (feats : List RoadFeature) : Statistics :=
  let a := feats.foldl statStep {}
  let errAcc := accuracyAcc feats
  let modelAccuracy : ℚ := if errAcc.2 > 0 then 100 * (1 - errAcc.1 / (errAcc.2 : ℚ)) else 0
  { totalObserved := a.observedTotal
    totalEstimated := a.estimatedTotal
    averagePredicted := if a.estimatedCount > 0 then a.estimatedTotal / (a.estimatedCount : ℚ) else 0
    observedSegments := a.observedSegments
    bikeLaneCoverage := if a.totalRoadLength ≠ 0 then
        jsRound (a.bikePathLength / a.totalRoadLength * 100) else 0
    mostActiveArea := mostActiveOf a.neighborhoodCounts
    busyHours := [8, 9, 17, 18]
    modelAccuracy := jsRound modelAccuracy
    averageIncome := if a.incomeCount > 0 then jsRound (a.totalIncome / (a.incomeCount : ℚ)) else 0
    averagePopulation := if a.populationCount > 0 then jsRound (a.totalPopulation / (a.populationCount : ℚ)) else 0
    averageBikeCommute := if a.bikeCommuteCount > 0 then jsRound (a.totalBikeCommute / (a.bikeCommuteCount : ℚ)) else 0
    averageEducation := if a.educationCount > 0 then jsRound (a.totalEducation / (a.educationCount : ℚ)) else 0 }

/-! ## Query/filter service (main.js 3403-3530) -/

/-- The `volumeFilter` field: in JS either the string sentinel or an array of
category names. -/
inductive VolumeFilter where
  | vstr (s : String)
  | varr (l : List String)
  deriving DecidableEq

/-- The filter settings object passed to the query functions. -/
structure Filters where
  neighborhood : String := "all"
  counterType : String := "all"
  volumeFilter : VolumeFilter := VolumeFilter.vstr "all"
  viewType : String := "combined"
  deriving DecidableEq

/-- `isInVolumeCategory` (main.js 3501-3510). -/
def isInVolumeCategory (count : ℚ) (category : String) : Bool :=
  if category = "high" then count ≥ 80
  else if category = "medium-high" then count ≥ 50 && count < 80
  else if category = "medium" then count ≥ 30 && count < 50
  else if category = "medium-low" then count ≥ 10 && count < 30
  else if category = "low" then count < 10
  else true

/-- `getCountForFeature` (main.js 3518-3530): view-dependent count selector. -/
def getCountForFeature (f : RoadFeature) (filters : Filters) : ℚ :=
  let p := f.properties
  if filters.viewType = "observed" && qTruthy p.OBSERVED_COUNT then
    p.OBSERVED_COUNT.getD 0
  else if filters.viewType = "predicted" && qTruthy p.predicted then
    p.predicted.getD 0
  else
    qSel p.OBSERVED_COUNT p.predicted 0

/-- The filter predicate of `getFilteredRoadData` (main.js 3415-3449).
`props.NEIGHBORHOOD !== filters.neighborhood` on a possibly-undefined property
is inequality of `Option String` with `some filter`. -/
def roadFilterPred (filters : Filters) (f : RoadFeature) : Bool :=
  let p := f.properties
  if filters.neighborhood ≠ "all" && p.NEIGHBORHOOD ≠ some filters.neighborhood then
    false
  else if filters.counterType ≠ "all" && p.COUNTER_TYPE ≠ some filters.counterType then
    false
  else
    match filters.volumeFilter with
    | VolumeFilter.vstr s =>
        if s = "all" then true
        else isInVolumeCategory (getCountForFeature f filters) s
    | VolumeFilter.varr l =>
        l.any fun category => isInVolumeCategory (getCountForFeature f filters) category

/-- The filter predicate of `getFilteredCounterData` (main.js 3472-3489):
neighborhood as above, counter type via `props.COUNTER_TYPE || props.cntr_ty`. -/
def counterFilterPred (filters : Filters) (f : CounterFeature) : Bool :=
  let p := f.properties
  if filters.neighborhood ≠ "all" && p.NEIGHBORHOOD ≠ some filters.neighborhood then
    false
  else if filters.counterType ≠ "all" &&
      jsOrS p.COUNTER_TYPE p.cntr_ty ≠ some filters.counterType then
    false
  else true

/-- The `JSON.parse(JSON.stringify(...))` deep copy of a road property bag:
a structural rebuild of every field (all values are JSON-representable
numbers and strings, so the round trip is the structural copy). -/
def deepCopyRoadProps (p : RoadProps) : RoadProps :=
  { SUBBLOCKKEY := p.SUBBLOCKKEY, SUBBLOK := p.SUBBLOK, FULLNAME := p.FULLNAME,
    RD_CLASS := p.RD_CLASS, NEIGHBORHOOD := p.NEIGHBORHOOD, SEG_LEN := p.SEG_LEN,
    segment_length := p.segment_length, BIKE_FT := p.BIKE_FT,
    bike_facility_type := p.bike_facility_type, degree_max := p.degree_max,
    betweenness_max := p.betweenness_max, closeness_max := p.closeness_max,
    DEGREE := p.DEGREE, BETWEEN := p.BETWEEN, CLOSENESS := p.CLOSENESS,
    populationE := p.populationE, median_incomeE := p.median_incomeE,
    commute_bicycleE := p.commute_bicycleE, edu_bachelors_plusE := p.edu_bachelors_plusE,
    rent_percentE := p.rent_percentE, median_ageE := p.median_ageE,
    POPULATION := p.POPULATION, MEDIAN_INCOME := p.MEDIAN_INCOME,
    COMMUTE_TIME := p.COMMUTE_TIME, BIKE_COMMUTE := p.BIKE_COMMUTE,
    EDUCATION := p.EDUCATION, WHITE_PERCENTAGE := p.WHITE_PERCENTAGE,
    RENT_PRICE := p.RENT_PRICE, MEDIAN_AGE := p.MEDIAN_AGE, GEOID := p.GEOID,
    predicted := p.predicted, predicted_alt := p.predicted_alt,
    OBSERVED_COUNT := p.OBSERVED_COUNT, COUNTER_TYPE := p.COUNTER_TYPE,
    residual := p.residual, percent_error := p.percent_error,
    traffic_level := p.traffic_level, lat := p.lat, lng := p.lng }

/-- Deep copy of a road feature. -/
def deepCopyRoadFeature (f : RoadFeature) : RoadFeature :=
  { properties := deepCopyRoadProps f.properties, geometry := f.geometry }

/-- Deep copy of a counter feature. -/
def deepCopyCounterFeature (f : CounterFeature) : CounterFeature :=
  { properties :=
      { SUBBLOCKKEY := f.properties.SUBBLOCKKEY, Site_Nm := f.properties.Site_Nm,
        COUNT := f.properties.COUNT, OBSERVED_COUNT := f.properties.OBSERVED_COUNT,
        COUNTER_TYPE := f.properties.COUNTER_TYPE, cntr_ty := f.properties.cntr_ty,
        NEIGHBORHOOD := f.properties.NEIGHBORHOOD } }

/-- `getFilteredRoadData` (main.js 3403-3453), with the store passed and
returned explicitly.  The source returns `null` when no road data is loaded;
otherwise it deep-copies the stored collection and runs `Array.filter` on the
copy.  No statement of the function assigns into `dataState`, so the store
component of the result is the input store. -/
def getFilteredRoadData (filters : Filters) (s : DataState) :
    Option (List RoadFeature) × DataState :=
  match s.roadNetworkData with
  | none => (none, s)
  | some col =>
      (some ((col.map deepCopyRoadFeature).filter (roadFilterPred filters)), s)

/-- `getFilteredCounterData` (main.js 3460-3493), same shape as
`getFilteredRoadData`. -/
def getFilteredCounterData (filters : Filters) (s : DataState) :
    Option (List CounterFeature) × DataState :=
  match s.counterPointsData with
  | none => (none, s)
  | some col =>
      (some ((col.map deepCopyCounterFeature).filter (counterFilterPred filters)), s)

/-- `getTemporalPredictionsForSegment` (main.js 2779-2782):
`dataState.temporalPredictions[String(geoid)] || null`.  The table values are
JS objects, hence truthy, so `|| null` yields the entry when the key is
present and `null` (modelled `none`) when it is absent. -/
def getTemporalPredictionsForSegment (s : DataState) (geoid : String) :
    Option DayTable :=
  (s.temporalPredictions.find? fun e => e.1 = geoid).map fun e => e.2

/-- `exportToCSV` (main.js 3829-3832): the source logs the filters and returns
the constant placeholder string. -/
def exportToCSV (_filters : Filters) : String := "Sample CSV data"

/-! ## Source loaders and defaults (main.js 2669-3034, 3536-3722)

Fetch-and-parse outcomes are an environment: each field holds `some` parsed
payload on success and `none` on fetch failure (non-success status) or parse
error — both reach the same `catch` in the source. -/

/-- Outcomes of the six static-file retrievals (primary and backup path for
the road network). -/
structure FetchEnv where
  roadPrimary : Option (List RoadFeature) := none
  roadBackup : Option (List RoadFeature) := none
  counters : Option (List CounterFeature) := none
  neighborhoods : Option (List NeighborhoodFeature) := none
  census : Option (List CensusFeature) := none
  predictionRows : Option (List PredRow) := none
  temporalRows : Option (List TemporalRow) := none

/-- `defaultRoadNetworkData` (main.js 3536-3581): the built-in two-feature
sample collection. -/
def defaultRoadNetworkData : List RoadFeature :=
  [ { properties := { SUBBLOCKKEY := some "sample_road_1",
                      FULLNAME := some "Main Street NW",
                      BIKE_FT := some "Protected",
                      NEIGHBORHOOD := some "Downtown",
                      SEG_LEN := some (0.25 : ℚ),
                      RD_CLASS := some "Local",
                      OBSERVED_COUNT := some 75,
                      predicted := some (78.5 : ℚ) }
      geometry := some (Geometry.lineString [((-77.02 : ℚ), (38.9 : ℚ)), ((-77.03 : ℚ), (38.9 : ℚ))]) },
    { properties := { SUBBLOCKKEY := some "sample_road_2",
                      FULLNAME := some "H Street NE",
                      BIKE_FT := some "Unprotected",
                      NEIGHBORHOOD := some "Capitol Hill",
                      SEG_LEN := some (0.15 : ℚ),
                      RD_CLASS := some "Collector",
                      predicted := some (45.2 : ℚ) }
      geometry := some (Geometry.lineString [((-76.99 : ℚ), (38.9 : ℚ)), ((-76.98 : ℚ), (38.9 : ℚ))]) } ]

/-- `defaultCounterData` (main.js 3587-3619). -/
def defaultCounterData : List CounterFeature :=
  [ { properties := { SUBBLOCKKEY := some "sample_road_1",
                      Site_Nm := some "Counter 1",
                      cntr_ty := some "AUTO",
                      COUNT := some 75 } },
    { properties := { SUBBLOCKKEY := some "sample_road_2",
                      Site_Nm := some "Counter 2",
                      cntr_ty := some "MANUAL",
                      COUNT := some 45 } } ]

/-- `defaultNeighborhoodData` (main.js 3625-3665). -/
def defaultNeighborhoodData : List NeighborhoodFeature :=
  [ { DC_HPN_NAME := some "Downtown", GEOID := some "11001000100" },
    { DC_HPN_NAME := some "Capitol Hill", GEOID := some "11001000200" } ]

/-- `defaultCensusData` (main.js 3671-3701). -/
def defaultCensusData : List CensusFeature :=
  [ { properties := { SUBBLOC := some "sample_road_1", GEOID := some "11001000100",
                      popltnE := some 5000, mdn_ncE := some 85000,
                      cmmt__E := some 22, cmmt_bE := some 5, ed_bc_E := some 75,
                      rnt_prE := some 2200, medn_gE := some 32 } } ]

/-- `defaultPredictionsData` (main.js 3707-3722). -/
def defaultPredictionsData : List PredRow :=
  [ { SUBBLOCKKEY := some "sample_road_1", pred := some (78.5 : ℚ),
      pred1 := some (80.2 : ℚ), SiteName := some "Counter 1" },
    { SUBBLOCKKEY := some "sample_road_2", pred := some (45.2 : ℚ),
      pred1 := some (47.8 : ℚ), SiteName := some "" } ]

/-- `loadRoadNetworkData` (main.js 2851-2889): primary path, then the backup
path, then the built-in default; each `catch` recovers, so the promise never
rejects. -/
def loadRoadNetworkData (env : FetchEnv) : List RoadFeature :=
  match env.roadPrimary with
  | some data => data
  | none =>
      match env.roadBackup with
      | some data => data
      | none => defaultRoadNetworkData

/-- `loadCounterPointsData` (main.js 2895-2930): on success, every feature
with both `COUNT` and `OBSERVED_COUNT` untruthy gets `COUNT = 0`; on failure
the default collection. -/
def loadCounterPointsData (env : FetchEnv) : List CounterFeature :=
  match env.counters with
  | some feats =>
      feats.map fun f =>
        if !qTruthy f.properties.COUNT && !qTruthy f.properties.OBSERVED_COUNT then
          { properties := { f.properties with COUNT := some 0 } }
        else f
  | none => defaultCounterData

/-- `loadNeighborhoodBoundaries` (main.js 2936-2963). -/
def loadNeighborhoodBoundaries (env : FetchEnv) : List NeighborhoodFeature :=
  (env.neighborhoods).getD defaultNeighborhoodData

/-- `loadCensusData` (main.js 2969-2994). -/
def loadCensusData (env : FetchEnv) : List CensusFeature :=
  (env.census).getD defaultCensusData

/-- `loadPredictionsData` (main.js 3000-3034). -/
def loadPredictionsData (env : FetchEnv) : List PredRow :=
  (env.predictionRows).getD defaultPredictionsData

/-- Write one hour value into a day table, creating the `Array(24).fill(0)`
row on first touch of a day (main.js 2757-2761). -/
def dayTableSet (dt : DayTable) (day hour : ℕ) (v : ℚ) : DayTable :=
  let rec go : List (ℕ × List ℚ) → List (ℕ × List ℚ)
    | [] => [(day, (List.replicate 24 (0 : ℚ)).set hour v)]
    | (d, hrs) :: rest => if d = day then (d, hrs.set hour v) :: rest else (d, hrs) :: go rest
  go dt

/-- Write one parsed temporal row into the nested table (main.js 2743-2762).
`String(row.GEOID)` of an undefined GEOID is the truthy string
`"undefined"`, so a missing GEOID does not skip the row; the row is skipped
when the day, hour or value is undefined, or the coerced key is empty. -/
def temporalStep (tbl : List (String × DayTable)) (row : TemporalRow) :
    List (String × DayTable) :=
  let geoid := row.GEOID.getD "undefined"
  match row.dotw, row.hour, row.hr_pred with
  | some day, some hour, some value =>
      if geoid = "" then tbl
      else
        let rec go : List (String × DayTable) → List (String × DayTable)
          | [] => [(geoid, dayTableSet [] day hour value)]
          | (g, dt) :: rest =>
              if g = geoid then (g, dayTableSet dt day hour value) :: rest
              else (g, dt) :: go rest
        go tbl
  | _, _, _ => tbl

/-- `loadTemporalPredictions` (main.js 2727-2772): build the nested
key → day → hours table; on failure the table is reset to empty. -/
def loadTemporalPredictions (env : FetchEnv) : List (String × DayTable) :=
  match env.temporalRows with
  | some rows => rows.foldl temporalStep []
  | none => []

/-- `extractNeighborhoodsList` (main.js 3247-3265): collect
`DC_HPN_NAME || NAME || NEIGHBORHOOD || "Unknown"` into a `Set` and sort.
Insertion sort models the JS lexicographic `Array.sort`. -/
def insertSorted (x : String) : List String → List String
  | [] => [x]
  | y :: rest => if x ≤ y then x :: y :: rest else y :: insertSorted x rest

/-- The resolved display name of one neighborhood feature (main.js 3254-3257). -/
def neighborhoodNameOf (f : NeighborhoodFeature) : String :=
  sSel f.DC_HPN_NAME (jsOrS f.NAME f.NEIGHBORHOOD) "Unknown"

/-- `extractNeighborhoodsList` (main.js 3247-3265). -/
def extractNeighborhoodsList (feats : List NeighborhoodFeature) : List String :=
  ((feats.map neighborhoodNameOf).dedup).foldr insertSorted []

/-- `processData` (main.js 2787-2804): the counter-update step runs when
counter and predictions data are present; the road join runs when all four
sources are present, reading the already-updated counter data. -/
def processData (s : DataState) (rnd : ℕ → ℚ) : DataState :=
  let s1 :=
    match s.counterPointsData, s.predictionsData with
    | some counters, some rows =>
        let updated := updateCounterPointsWithObservedData rows counters rnd
        { s with counterPointsData := some updated }
    | _, _ => s
  match s1.roadNetworkData, s1.counterPointsData, s1.predictionsData, s1.censusData with
  | some roads, some counters, some rows, some census =>
      let joined := processRoadNetworkData roads counters rows census
      { s1 with roadNetworkData := some joined }
  | _, _, _, _ => s1

/-- `initData` (main.js 2669-2721): early-exit when already initialized; load
all six sources (each loader recovers from failure with its fallback, so
`Promise.all` resolves), store them, run `processData`, extract the
neighborhood list, compute statistics and mark initialized.  The result is
`Except.ok` exactly because no step of the settled pipeline throws; the
`catch` at line 2717 would surface a rejection and is modelled by the
`Except` return type. -/
def initData (env : FetchEnv) (rnd : ℕ → ℚ) (s0 : DataState) :
    Except String DataState :=
  if s0.isInitialized then Except.ok s0
  else
    let roadData := loadRoadNetworkData env
    let counterData := loadCounterPointsData env
    let neighborhoodData := loadNeighborhoodBoundaries env
    let censusData := loadCensusData env
    let predictionsData := loadPredictionsData env
    let temporal := loadTemporalPredictions env
    let s1 : DataState :=
      { s0 with roadNetworkData := some roadData,
                counterPointsData := some counterData,
                neighborhoodBoundaries := some neighborhoodData,
                censusData := some censusData,
                predictionsData := some predictionsData,
                temporalPredictions := temporal }
    let s2 := processData s1 rnd
    let s3 := { s2 with neighborhoodsList := extractNeighborhoodsList neighborhoodData }
    let s4 := { s3 with statistics := calculateStatistics (s3.roadNetworkData.getD []) }
    Except.ok { s4 with isInitialized := true }

/-! ## Field-preservation lemmas for the join steps

Each enrichment step writes a fixed set of properties; every other property
is carried through unchanged.  These projections drive the claim proofs. -/

theorem attachPredicted_OBSERVED_COUNT (e? : Option PredEntry) (p : RoadProps) :
    (attachPredicted e? p).OBSERVED_COUNT = p.OBSERVED_COUNT := by
  cases e? <;> rfl

theorem attachPredicted_residual (e? : Option PredEntry) (p : RoadProps) :
    (attachPredicted e? p).residual = p.residual := by
  cases e? <;> rfl

theorem attachPredicted_percent_error (e? : Option PredEntry) (p : RoadProps) :
    (attachPredicted e? p).percent_error = p.percent_error := by
  cases e? <;> rfl

theorem attachPredicted_traffic_level (e? : Option PredEntry) (p : RoadProps) :
    (attachPredicted e? p).traffic_level = p.traffic_level := by
  cases e? <;> rfl

theorem attachCounter_predicted (e? : Option CounterEntry) (p : RoadProps) :
    (attachCounter e? p).predicted = p.predicted := by
  cases e? <;> rfl

theorem attachCounter_residual (e? : Option CounterEntry) (p : RoadProps) :
    (attachCounter e? p).residual = p.residual := by
  cases e? <;> rfl

theorem attachCounter_percent_error (e? : Option CounterEntry) (p : RoadProps) :
    (attachCounter e? p).percent_error = p.percent_error := by
  cases e? <;> rfl

theorem attachCounter_traffic_level (e? : Option CounterEntry) (p : RoadProps) :
    (attachCounter e? p).traffic_level = p.traffic_level := by
  cases e? <;> rfl

theorem attachCensus_predicted (e? : Option CensusEntry) (p : RoadProps) :
    (attachCensus e? p).predicted = p.predicted := by
  cases e? <;> rfl

theorem attachCensus_OBSERVED_COUNT (e? : Option CensusEntry) (p : RoadProps) :
    (attachCensus e? p).OBSERVED_COUNT = p.OBSERVED_COUNT := by
  cases e? <;> rfl

theorem attachCensus_residual (e? : Option CensusEntry) (p : RoadProps) :
    (attachCensus e? p).residual = p.residual := by
  cases e? <;> rfl

theorem attachCensus_percent_error (e? : Option CensusEntry) (p : RoadProps) :
    (attachCensus e? p).percent_error = p.percent_error := by
  cases e? <;> rfl

theorem attachCensus_traffic_level (e? : Option CensusEntry) (p : RoadProps) :
    (attachCensus e? p).traffic_level = p.traffic_level := by
  cases e? <;> rfl

theorem computeResidual_predicted (p : RoadProps) :
    (computeResidual p).predicted = p.predicted := by
  unfold computeResidual; split <;> rfl

theorem computeResidual_OBSERVED_COUNT (p : RoadProps) :
    (computeResidual p).OBSERVED_COUNT = p.OBSERVED_COUNT := by
  unfold computeResidual; split <;> rfl

theorem computeResidual_traffic_level (p : RoadProps) :
    (computeResidual p).traffic_level = p.traffic_level := by
  unfold computeResidual; split <;> rfl

theorem computeTrafficLevel_predicted (p : RoadProps) :
    (computeTrafficLevel p).predicted = p.predicted := by
  unfold computeTrafficLevel; split <;> rfl

theorem computeTrafficLevel_OBSERVED_COUNT (p : RoadProps) :
    (computeTrafficLevel p).OBSERVED_COUNT = p.OBSERVED_COUNT := by
  unfold computeTrafficLevel; split <;> rfl

theorem computeTrafficLevel_residual (p : RoadProps) :
    (computeTrafficLevel p).residual = p.residual := by
  unfold computeTrafficLevel; split <;> rfl

theorem computeTrafficLevel_percent_error (p : RoadProps) :
    (computeTrafficLevel p).percent_error = p.percent_error := by
  unfold computeTrafficLevel; split <;> rfl

theorem attachMidpoint_predicted (g? : Option Geometry) (p : RoadProps) :
    (attachMidpoint g? p).predicted = p.predicted := by
  rcases g? with _ | g
  · rfl
  · rcases h : midPointOf g with _ | mp <;> simp [attachMidpoint, h]

theorem attachMidpoint_OBSERVED_COUNT (g? : Option Geometry) (p : RoadProps) :
    (attachMidpoint g? p).OBSERVED_COUNT = p.OBSERVED_COUNT := by
  rcases g? with _ | g
  · rfl
  · rcases h : midPointOf g with _ | mp <;> simp [attachMidpoint, h]

theorem attachMidpoint_residual (g? : Option Geometry) (p : RoadProps) :
    (attachMidpoint g? p).residual = p.residual := by
  rcases g? with _ | g
  · rfl
  · rcases h : midPointOf g with _ | mp <;> simp [attachMidpoint, h]

theorem attachMidpoint_percent_error (g? : Option Geometry) (p : RoadProps) :
    (attachMidpoint g? p).percent_error = p.percent_error := by
  rcases g? with _ | g
  · rfl
  · rcases h : midPointOf g with _ | mp <;> simp [attachMidpoint, h]

theorem attachMidpoint_traffic_level (g? : Option Geometry) (p : RoadProps) :
    (attachMidpoint g? p).traffic_level = p.traffic_level := by
  rcases g? with _ | g
  · rfl
  · rcases h : midPointOf g with _ | mp <;> simp [attachMidpoint, h]

theorem enrichPre_residual (pl cl xl) (k : String) (p : RoadProps) :
    (enrichPre pl cl xl k p).residual = p.residual := by
  unfold enrichPre coerceDemographics coerceCentrality
  simp [attachCensus_residual, attachCounter_residual, attachPredicted_residual]

theorem enrichPre_percent_error (pl cl xl) (k : String) (p : RoadProps) :
    (enrichPre pl cl xl k p).percent_error = p.percent_error := by
  unfold enrichPre coerceDemographics coerceCentrality
  simp [attachCensus_percent_error, attachCounter_percent_error, attachPredicted_percent_error]

theorem enrichPre_traffic_level (pl cl xl) (k : String) (p : RoadProps) :
    (enrichPre pl cl xl k p).traffic_level = p.traffic_level := by
  unfold enrichPre coerceDemographics coerceCentrality
  simp [attachCensus_traffic_level, attachCounter_traffic_level, attachPredicted_traffic_level]

/-- `qTruthy (some q)` unfolds to `q ≠ 0`. -/
theorem qTruthy_some (q : ℚ) : qTruthy (some q) = true ↔ q ≠ 0 := by
  simp [qTruthy]

/-- The enriched feature produced for a keyed segment, written with the
named stages. -/
theorem enrichRoadFeature_eq_of_key (pl : String → Option PredEntry)
    (cl : String → Option CounterEntry) (xl : String → Option CensusEntry)
    (f : RoadFeature)
    (hkey : sTruthy (jsOrS f.properties.SUBBLOCKKEY f.properties.SUBBLOK) = true) :
    enrichRoadFeature pl cl xl f =
      { f with properties := (attachMidpoint f.geometry
          (computeTrafficLevel
            (computeResidual
              (enrichPre pl cl xl
                ((jsOrS f.properties.SUBBLOCKKEY f.properties.SUBBLOK).getD "")
                f.properties)))) } := by
  simp [enrichRoadFeature, hkey]

/-- When both guards are truthy, `computeResidual` writes the residual. -/
theorem computeResidual_residual_pos (p : RoadProps)
    (h1 : qTruthy p.OBSERVED_COUNT = true) (h2 : qTruthy p.predicted = true) :
    (computeResidual p).residual =
      some (p.OBSERVED_COUNT.getD 0 - p.predicted.getD 0) := by
  have hc : (qTruthy p.OBSERVED_COUNT && qTruthy p.predicted) = true := by
    rw [h1, h2]; rfl
  unfold computeResidual
  rw [if_pos hc]

/-- When both guards are truthy, `computeResidual` writes the percent error. -/
theorem computeResidual_percent_error_pos (p : RoadProps)
    (h1 : qTruthy p.OBSERVED_COUNT = true) (h2 : qTruthy p.predicted = true) :
    (computeResidual p).percent_error =
      some ((p.OBSERVED_COUNT.getD 0 - p.predicted.getD 0) / p.OBSERVED_COUNT.getD 0 * 100) := by
  have hc : (qTruthy p.OBSERVED_COUNT && qTruthy p.predicted) = true := by
    rw [h1, h2]; rfl
  unfold computeResidual
  rw [if_pos hc]

/-- When either guard is falsy, `computeResidual` leaves the record unchanged. -/
theorem computeResidual_neg (p : RoadProps)
    (h : (qTruthy p.OBSERVED_COUNT && qTruthy p.predicted) = false) :
    computeResidual p = p := by
  unfold computeResidual
  rw [if_neg]
  simp [h]

/-- C1 (corrected): for a keyed segment entering the join with no derived
fields, the join attaches `residual` and `percent_error` exactly when both the
(post-join) observed count and predicted value are defined AND nonzero — JS
truthiness, not mere definedness — and in that case
`residual = observed − predicted` and
`percent_error = (observed − predicted) / observed × 100`. -/
theorem claim_C1_residual_iff_truthy
    (roads : List RoadFeature) (counters : List CounterFeature)
    (rows : List PredRow) (census : List CensusFeature) (f : RoadFeature)
    (hmem : f ∈ roads)
    (hres : f.properties.residual = none)
    (hpe : f.properties.percent_error = none)
    (hkey : sTruthy (jsOrS f.properties.SUBBLOCKKEY f.properties.SUBBLOK) = true) :
    ∃ g, g = enrichRoadFeature (createPredictedLookup rows) (createCounterLookup counters)
        (createCensusLookup census) f ∧
      g ∈ processRoadNetworkData roads counters rows census ∧
      ((g.properties.residual ≠ none) ↔
        (qTruthy g.properties.OBSERVED_COUNT = true ∧ qTruthy g.properties.predicted = true)) ∧
      ((g.properties.percent_error ≠ none) ↔
        (qTruthy g.properties.OBSERVED_COUNT = true ∧ qTruthy g.properties.predicted = true)) ∧
      (∀ o pr : ℚ, g.properties.OBSERVED_COUNT = some o → g.properties.predicted = some pr →
        o ≠ 0 → pr ≠ 0 →
        g.properties.residual = some (o - pr) ∧
        g.properties.percent_error = some ((o - pr) / o * 100)) := by
  have hg := enrichRoadFeature_eq_of_key (createPredictedLookup rows)
    (createCounterLookup counters) (createCensusLookup census) f hkey
  set q := enrichPre (createPredictedLookup rows) (createCounterLookup counters)
    (createCensusLookup census)
    ((jsOrS f.properties.SUBBLOCKKEY f.properties.SUBBLOK).getD "") f.properties with hqdef
  have hqres : q.residual = none := by
    rw [hqdef, enrichPre_residual, hres]
  have hqpe : q.percent_error = none := by
    rw [hqdef, enrichPre_percent_error, hpe]
  refine ⟨_, rfl, List.mem_map_of_mem _ hmem, ?_, ?_, ?_⟩
  · rw [hg]
    simp only [attachMidpoint_residual, computeTrafficLevel_residual,
      attachMidpoint_OBSERVED_COUNT, computeTrafficLevel_OBSERVED_COUNT,
      computeResidual_OBSERVED_COUNT, attachMidpoint_predicted,
      computeTrafficLevel_predicted, computeResidual_predicted]
    cases hO : qTruthy q.OBSERVED_COUNT with
    | false =>
        rw [computeResidual_neg q (by rw [hO]; rfl)]
        simp [hqres, hO]
    | true =>
        cases hP : qTruthy q.predicted with
        | false =>
            rw [computeResidual_neg q (by rw [hO, hP]; rfl)]
            simp [hqres, hP]
        | true =>
            rw [computeResidual_residual_pos q hO hP]
            simp
  · rw [hg]
    simp only [attachMidpoint_percent_error, computeTrafficLevel_percent_error,
      attachMidpoint_OBSERVED_COUNT, computeTrafficLevel_OBSERVED_COUNT,
      computeResidual_OBSERVED_COUNT, attachMidpoint_predicted,
      computeTrafficLevel_predicted, computeResidual_predicted]
    cases hO : qTruthy q.OBSERVED_COUNT with
    | false =>
        rw [computeResidual_neg q (by rw [hO]; rfl)]
        simp [hqpe, hO]
    | true =>
        cases hP : qTruthy q.predicted with
        | false =>
            rw [computeResidual_neg q (by rw [hO, hP]; rfl)]
            simp [hqpe, hP]
        | true =>
            rw [computeResidual_percent_error_pos q hO hP]
            simp
  · intro o pr ho hpr ho0 hpr0
    rw [hg] at ho hpr ⊢
    simp only [attachMidpoint_OBSERVED_COUNT, computeTrafficLevel_OBSERVED_COUNT,
      computeResidual_OBSERVED_COUNT, attachMidpoint_predicted,
      computeTrafficLevel_predicted, computeResidual_predicted] at ho hpr
    have h1 : qTruthy q.OBSERVED_COUNT = true := by
      rw [ho]; exact (qTruthy_some o).mpr ho0
    have h2 : qTruthy q.predicted = true := by
      rw [hpr]; exact (qTruthy_some pr).mpr hpr0
    constructor
    · simp only [attachMidpoint_residual, computeTrafficLevel_residual]
      rw [computeResidual_residual_pos q h1 h2, ho, hpr]
      rfl
    · simp only [attachMidpoint_percent_error, computeTrafficLevel_percent_error]
      rw [computeResidual_percent_error_pos q h1 h2, ho, hpr]
      rfl

/-- When `predicted` is truthy, `computeTrafficLevel` writes the bucket. -/
theorem computeTrafficLevel_pos (p : RoadProps) (h : qTruthy p.predicted = true) :
    (computeTrafficLevel p).traffic_level =
      some (if p.predicted.getD 0 ≥ 80 then "high"
            else if p.predicted.getD 0 ≥ 40 then "medium" else "low") := by
  unfold computeTrafficLevel
  rw [if_pos h]

/-- When `predicted` is falsy, `computeTrafficLevel` leaves the record
unchanged. -/
theorem computeTrafficLevel_neg (p : RoadProps) (h : qTruthy p.predicted = false) :
    computeTrafficLevel p = p := by
  unfold computeTrafficLevel
  rw [if_neg]
  simp [h]

/-- C2 (corrected): for a keyed segment entering the join with no
`traffic_level`, the join attaches `traffic_level` exactly when the
(post-join) predicted value is defined AND nonzero — JS truthiness, not mere
definedness — and in that case the bucket is `"high"` for predicted ≥ 80,
`"medium"` for 40 ≤ predicted < 80, and `"low"` otherwise. -/
theorem claim_C2_trafficLevel_iff_truthy
    (roads : List RoadFeature) (counters : List CounterFeature)
    (rows : List PredRow) (census : List CensusFeature) (f : RoadFeature)
    (hmem : f ∈ roads)
    (htl : f.properties.traffic_level = none)
    (hkey : sTruthy (jsOrS f.properties.SUBBLOCKKEY f.properties.SUBBLOK) = true) :
    ∃ g, g = enrichRoadFeature (createPredictedLookup rows) (createCounterLookup counters)
        (createCensusLookup census) f ∧
      g ∈ processRoadNetworkData roads counters rows census ∧
      ((g.properties.traffic_level ≠ none) ↔ qTruthy g.properties.predicted = true) ∧
      (∀ pr : ℚ, g.properties.predicted = some pr → pr ≠ 0 →
        g.properties.traffic_level =
          some (if pr ≥ 80 then "high" else if pr ≥ 40 then "medium" else "low")) := by
  have hg := enrichRoadFeature_eq_of_key (createPredictedLookup rows)
    (createCounterLookup counters) (createCensusLookup census) f hkey
  set r := computeResidual (enrichPre (createPredictedLookup rows)
    (createCounterLookup counters) (createCensusLookup census)
    ((jsOrS f.properties.SUBBLOCKKEY f.properties.SUBBLOK).getD "") f.properties) with hrdef
  have hrtl : r.traffic_level = none := by
    rw [hrdef, computeResidual_traffic_level, enrichPre_traffic_level, htl]
  refine ⟨_, rfl, List.mem_map_of_mem _ hmem, ?_, ?_⟩
  · rw [hg]
    simp only [attachMidpoint_traffic_level, attachMidpoint_predicted,
      computeTrafficLevel_predicted]
    cases hP : qTruthy r.predicted with
    | false =>
        rw [computeTrafficLevel_neg r hP]
        simp [hrtl, hP]
    | true =>
        rw [computeTrafficLevel_pos r hP]
        simp [hP]
  · intro pr hpr hpr0
    rw [hg] at hpr ⊢
    simp only [attachMidpoint_predicted, computeTrafficLevel_predicted] at hpr
    have hP : qTruthy r.predicted = true := by
      rw [hpr]; exact (qTruthy_some pr).mpr hpr0
    simp only [attachMidpoint_traffic_level]
    rw [computeTrafficLevel_pos r hP, hpr]
    rfl

/-- The concrete segment of the C1 counterexample: a resolvable key, an
observed count that is defined and exactly 0, a predicted value of 50. -/
def roadC1cex : RoadFeature :=
  { properties := { SUBBLOCKKEY := some "A1", OBSERVED_COUNT := some 0,
                    predicted := some 50 } }

/-- C1 counterexample: the claim says `residual` is defined iff both
`observed` and `predicted` are defined, and that for observed = 0 the residual
is still attached.  On this segment both fields are defined (observed = 0,
predicted = 50), yet the join attaches neither `residual` nor
`percent_error`. -/
theorem claim_C1_counterexample :
    ((processRoadNetworkData [roadC1cex] [] [] []).map fun g =>
      (g.properties.OBSERVED_COUNT, g.properties.predicted,
       g.properties.residual, g.properties.percent_error)) =
      [(some 0, some 50, none, none)] := by
  rfl

/-- C1 witness: the spec scenario key "A1", predicted 80, observed 100 —
the amended theorem yields residual 20 and percent error 20. -/
theorem claim_C1_witness :
    ∃ g, g ∈ processRoadNetworkData
        [{ properties := { SUBBLOCKKEY := some "A1", OBSERVED_COUNT := some 100,
                           predicted := some 80 } }] [] [] [] ∧
      g.properties.residual = some 20 ∧ g.properties.percent_error = some 20 := by
  obtain ⟨g, hg, hmem, h1, h2, himp⟩ :=
    claim_C1_residual_iff_truthy
      [{ properties := { SUBBLOCKKEY := some "A1", OBSERVED_COUNT := some 100,
                         predicted := some 80 } }] [] [] []
      { properties := { SUBBLOCKKEY := some "A1", OBSERVED_COUNT := some 100,
                        predicted := some 80 } }
      (List.mem_singleton_self _) rfl rfl rfl
  subst hg
  obtain ⟨hr, hp⟩ := himp 100 80 rfl rfl (by norm_num) (by norm_num)
  refine ⟨_, hmem, ?_, ?_⟩
  · rw [hr]; norm_num
  · rw [hp]; norm_num

/-- The concrete inputs of the C2 counterexample: a keyed segment with no
predicted value of its own, and a predictions row whose `.pred` parses to 0,
so the lookup attaches `predicted = 0`. -/
def roadC2cex : RoadFeature := { properties := { SUBBLOCKKEY := some "A2x" } }

/-- The predictions row for the C2 counterexample. -/
def predRowC2cex : PredRow := { SUBBLOCKKEY := some "A2x", pred := some 0 }

/-- C2 counterexample: the claim says `traffic_level` is defined iff
`predicted` is defined.  After the join this segment has `predicted` defined
(and equal to 0) but no `traffic_level`. -/
theorem claim_C2_counterexample :
    ((processRoadNetworkData [roadC2cex] [] [predRowC2cex] []).map fun g =>
      (g.properties.predicted, g.properties.traffic_level)) =
      [(some 0, none)] := by
  rfl

/-- C2 witness: the spec scenario key "A2" with predicted 45 — the amended
theorem yields the bucket "medium". -/
theorem claim_C2_witness :
    ∃ g, g ∈ processRoadNetworkData
        [{ properties := { SUBBLOCKKEY := some "A2", predicted := some 45 } }] [] [] [] ∧
      g.properties.traffic_level = some "medium" := by
  obtain ⟨g, hg, hmem, hiff, himp⟩ :=
    claim_C2_trafficLevel_iff_truthy
      [{ properties := { SUBBLOCKKEY := some "A2", predicted := some 45 } }] [] [] []
      { properties := { SUBBLOCKKEY := some "A2", predicted := some 45 } }
      (List.mem_singleton_self _) rfl rfl
  subst hg
  have htl := himp 45 rfl (by norm_num)
  refine ⟨_, hmem, ?_⟩
  rw [htl, if_neg (by norm_num : ¬(45 : ℚ) ≥ 80), if_pos (by norm_num : (45 : ℚ) ≥ 40)]

/-- C3 (code bug): `exportToCSV` is specified to produce comma-delimited CSV
text from the currently filtered view, but the source returns the constant
placeholder string `"Sample CSV data"` for every filter argument — here shown
at two different concrete filter settings. -/
theorem claim_C3_exportToCSV_constant :
    exportToCSV { neighborhood := "all", counterType := "all",
                  volumeFilter := VolumeFilter.vstr "all", viewType := "combined" } =
      "Sample CSV data" ∧
    exportToCSV { neighborhood := "Downtown", counterType := "AUTO",
                  volumeFilter := VolumeFilter.varr ["high", "low"],
                  viewType := "observed" } = "Sample CSV data" :=
  ⟨rfl, rfl⟩

/-- Follows the claim wording of C5 for comparison with the source: in the
combined view the count is the observed count if PRESENT (defined), else the
predicted value if present, else 0. -/
def specCombinedCount (f : RoadFeature) : ℚ :=
  match f.properties.OBSERVED_COUNT with
  | some o => o
  | none =>
      match f.properties.predicted with
      | some p => p
      | none => 0

/-- The concrete feature of the C5 counterexample: observed count present and
exactly 0, predicted 50. -/
def roadC5cex : RoadFeature :=
  { properties := { OBSERVED_COUNT := some 0, predicted := some 50 } }

/-- C5 counterexample: in the combined view the source falls through a
present-but-zero observed count to the predicted value (50), while the claim
("observed if present, else predicted, else 0") demands 0. -/
theorem claim_C5_counterexample :
    getCountForFeature roadC5cex
      { neighborhood := "all", counterType := "all",
        volumeFilter := VolumeFilter.vstr "all", viewType := "combined" } = 50 ∧
    specCombinedCount roadC5cex = 0 ∧
    roadC5cex.properties.OBSERVED_COUNT = some 0 :=
  ⟨rfl, rfl, rfl⟩

/-- C5 (corrected): the volume-bucket boundaries are exactly as claimed
(high ≥ 80, medium-high [50,80), medium [30,50), medium-low [10,30),
low < 10), and in the combined view the count selector takes the observed
count if TRUTHY (present and nonzero), else the predicted value if truthy,
else 0. -/
theorem claim_C5_volume_buckets (c : ℚ) :
    (isInVolumeCategory c "high" = true ↔ 80 ≤ c) ∧
    (isInVolumeCategory c "medium-high" = true ↔ 50 ≤ c ∧ c < 80) ∧
    (isInVolumeCategory c "medium" = true ↔ 30 ≤ c ∧ c < 50) ∧
    (isInVolumeCategory c "medium-low" = true ↔ 10 ≤ c ∧ c < 30) ∧
    (isInVolumeCategory c "low" = true ↔ c < 10) ∧
    (∀ (fl : Filters) (f : RoadFeature), fl.viewType = "combined" →
      getCountForFeature f fl =
        (if qTruthy f.properties.OBSERVED_COUNT then f.properties.OBSERVED_COUNT.getD 0
         else if qTruthy f.properties.predicted then f.properties.predicted.getD 0
         else 0)) := by
  refine ⟨?_, ?_, ?_, ?_, ?_, ?_⟩
  · simp [isInVolumeCategory]
  · simp [isInVolumeCategory]
  · simp [isInVolumeCategory]
  · simp [isInVolumeCategory]
  · simp [isInVolumeCategory]
  · intro fl f h
    simp [getCountForFeature, h, qSel]

/-- C5 witness: the boundary value 80 is "high", and the combined-view
selector on a present-but-zero observed count with predicted 50 yields 50. -/
theorem claim_C5_witness :
    isInVolumeCategory 80 "high" = true ∧
    getCountForFeature
      { properties := { OBSERVED_COUNT := some 0, predicted := some 50 } }
      { neighborhood := "all", counterType := "all",
        volumeFilter := VolumeFilter.vstr "all", viewType := "combined" } = 50 := by
  constructor
  · exact (claim_C5_volume_buckets 80).1.mpr (by norm_num)
  · rw [(claim_C5_volume_buckets 0).2.2.2.2.2
      { neighborhood := "all", counterType := "all",
        volumeFilter := VolumeFilter.vstr "all", viewType := "combined" }
      { properties := { OBSERVED_COUNT := some 0, predicted := some 50 } } rfl]
    rfl

/-- C6 (confirmed): both filter queries hand back the store untouched — the
source deep-copies the stored collection and filters the copy, and no
statement of either function assigns into `dataState`. -/
theorem claim_C6_filters_preserve_store (fl : Filters) (s : DataState) :
    (getFilteredRoadData fl s).2 = s ∧ (getFilteredCounterData fl s).2 = s := by
  constructor
  · unfold getFilteredRoadData
    rcases hr : s.roadNetworkData with _ | col <;> simp [hr]
  · unfold getFilteredCounterData
    rcases hc : s.counterPointsData with _ | col <;> simp [hc]

/-- C7 (confirmed): the temporal lookup returns the not-found signal `none`
exactly when no entry of the table carries the requested key — never a zeroed
table — and any returned table is the entry stored under that exact key. -/
theorem claim_C7_temporal_lookup (s : DataState) (k : String) :
    (getTemporalPredictionsForSegment s k = none ↔
      ∀ e ∈ s.temporalPredictions, e.1 ≠ k) ∧
    (∀ t, getTemporalPredictionsForSegment s k = some t →
      (k, t) ∈ s.temporalPredictions) := by
  unfold getTemporalPredictionsForSegment
  constructor
  · simp [Option.map_eq_none', List.find?_eq_none]
  · intro t h
    rcases hf : s.temporalPredictions.find? (fun e => e.1 = k) with _ | e
    · rw [hf] at h
      simp at h
    · rw [hf] at h
      simp only [Option.map_some', Option.some.injEq] at h
      have hmem := List.mem_of_find?_eq_some hf
      have hk : e.1 = k := by simpa using List.find?_some hf
      obtain ⟨e1, e2⟩ := e
      simp only at hk h
      rw [← hk, ← h]
      exact hmem

/-- C7 witness: a key absent from a concrete one-entry table yields `none`. -/
theorem claim_C7_witness :
    getTemporalPredictionsForSegment
      { temporalPredictions := [("A", ([] : DayTable))] } "B" = none :=
  (claim_C7_temporal_lookup { temporalPredictions := [("A", ([] : DayTable))] } "B").1.mpr
    (by decide)

/-! ## Characterizations of the `calculateStatistics` fold -/

/-- `statStepCounts` written as a single record update. -/
theorem statStepCounts_eq (a : StatAcc) (p : RoadProps) :
    statStepCounts a p =
      { a with
        observedTotal := a.observedTotal +
          (if qTruthy p.OBSERVED_COUNT then p.OBSERVED_COUNT.getD 0 else 0)
        observedSegments := a.observedSegments +
          (if qTruthy p.OBSERVED_COUNT then 1 else 0)
        estimatedTotal := a.estimatedTotal +
          (if qTruthy p.predicted then p.predicted.getD 0 else 0)
        estimatedCount := a.estimatedCount + (if qTruthy p.predicted then 1 else 0) } := by
  simp only [statStepCounts]
  split <;> split <;> simp

/-- `statStepLength` written as a single record update. -/
theorem statStepLength_eq (a : StatAcc) (p : RoadProps) :
    statStepLength a p =
      { a with
        totalRoadLength := a.totalRoadLength +
          (if segLenTruthy p then segLenOf p else 0)
        bikePathLength := a.bikePathLength +
          (if segLenTruthy p && bikeFacilityCounts p then segLenOf p else 0) } := by
  simp only [statStepLength]
  split
  · split <;> simp_all
  · simp_all

/-- `statStepNeighborhood` written as a single record update. -/
theorem statStepNeighborhood_eq (a : StatAcc) (p : RoadProps) :
    statStepNeighborhood a p =
      { a with neighborhoodCounts := (if sTruthy p.NEIGHBORHOOD then
          assocAdd a.neighborhoodCounts (p.NEIGHBORHOOD.getD "")
            (qSel p.OBSERVED_COUNT p.predicted 0)
          else a.neighborhoodCounts) } := by
  simp only [statStepNeighborhood]
  split <;> simp

/-- `statStepIncome` written as a single record update. -/
theorem statStepIncome_eq (a : StatAcc) (p : RoadProps) :
    statStepIncome a p =
      { a with
        totalIncome := a.totalIncome +
          (if qTruthy p.MEDIAN_INCOME || qTruthy p.median_incomeE then
            qSel p.MEDIAN_INCOME p.median_incomeE 0 else 0)
        incomeCount := a.incomeCount +
          (if qTruthy p.MEDIAN_INCOME || qTruthy p.median_incomeE then 1 else 0) } := by
  simp only [statStepIncome]
  split <;> simp_all

/-- `statStepPopulation` written as a single record update. -/
theorem statStepPopulation_eq (a : StatAcc) (p : RoadProps) :
    statStepPopulation a p =
      { a with
        totalPopulation := a.totalPopulation +
          (if qTruthy p.POPULATION || qTruthy p.populationE then
            qSel p.POPULATION p.populationE 0 else 0)
        populationCount := a.populationCount +
          (if qTruthy p.POPULATION || qTruthy p.populationE then 1 else 0) } := by
  simp only [statStepPopulation]
  split <;> simp_all

/-- `statStepBikeCommute` written as a single record update. -/
theorem statStepBikeCommute_eq (a : StatAcc) (p : RoadProps) :
    statStepBikeCommute a p =
      { a with
        totalBikeCommute := a.totalBikeCommute +
          (if qTruthy p.BIKE_COMMUTE || qTruthy p.commute_bicycleE then
            qSel p.BIKE_COMMUTE p.commute_bicycleE 0 else 0)
        bikeCommuteCount := a.bikeCommuteCount +
          (if qTruthy p.BIKE_COMMUTE || qTruthy p.commute_bicycleE then 1 else 0) } := by
  simp only [statStepBikeCommute]
  split <;> simp_all

/-- `statStepEducation` written as a single record update. -/
theorem statStepEducation_eq (a : StatAcc) (p : RoadProps) :
    statStepEducation a p =
      { a with
        totalEducation := a.totalEducation +
          (if qTruthy p.EDUCATION || qTruthy p.edu_bachelors_plusE then
            qSel p.EDUCATION p.edu_bachelors_plusE 0 else 0)
        educationCount := a.educationCount +
          (if qTruthy p.EDUCATION || qTruthy p.edu_bachelors_plusE then 1 else 0) } := by
  simp only [statStepEducation]
  split <;> simp_all

/-- Sum of `val` over the features whose properties satisfy `cond`. -/
def condSum (roads : List RoadFeature) (cond : RoadProps → Bool)
    (val : RoadProps → ℚ) : ℚ :=
  ((roads.filter fun f => cond f.properties).map fun f => val f.properties).sum

/-- Number of features whose properties satisfy `cond`. -/
def condLen (roads : List RoadFeature) (cond : RoadProps → Bool) : ℕ :=
  (roads.filter fun f => cond f.properties).length

theorem condSum_cons (f : RoadFeature) (l : List RoadFeature)
    (cond : RoadProps → Bool) (val : RoadProps → ℚ) :
    condSum (f :: l) cond val =
      (if cond f.properties then val f.properties else 0) + condSum l cond val := by
  simp only [condSum, List.filter_cons]
  split <;> simp

theorem condLen_cons (f : RoadFeature) (l : List RoadFeature)
    (cond : RoadProps → Bool) :
    condLen (f :: l) cond = (if cond f.properties then 1 else 0) + condLen l cond := by
  simp only [condLen, List.filter_cons]
  split <;> simp [Nat.add_comm]

theorem statStep_totalRoadLength (a : StatAcc) (f : RoadFeature) :
    (statStep a f).totalRoadLength =
      a.totalRoadLength + (if segLenTruthy f.properties then segLenOf f.properties else 0) := by
  simp [statStep, statStepCounts_eq, statStepLength_eq, statStepNeighborhood_eq,
    statStepIncome_eq, statStepPopulation_eq, statStepBikeCommute_eq, statStepEducation_eq]

theorem statStep_bikePathLength (a : StatAcc) (f : RoadFeature) :
    (statStep a f).bikePathLength =
      a.bikePathLength +
        (if segLenTruthy f.properties && bikeFacilityCounts f.properties then
          segLenOf f.properties else 0) := by
  simp [statStep, statStepCounts_eq, statStepLength_eq, statStepNeighborhood_eq,
    statStepIncome_eq, statStepPopulation_eq, statStepBikeCommute_eq, statStepEducation_eq]

theorem statStep_totalIncome (a : StatAcc) (f : RoadFeature) :
    (statStep a f).totalIncome =
      a.totalIncome +
        (if qTruthy f.properties.MEDIAN_INCOME || qTruthy f.properties.median_incomeE then
          qSel f.properties.MEDIAN_INCOME f.properties.median_incomeE 0 else 0) := by
  simp [statStep, statStepCounts_eq, statStepLength_eq, statStepNeighborhood_eq,
    statStepIncome_eq, statStepPopulation_eq, statStepBikeCommute_eq, statStepEducation_eq]

theorem statStep_incomeCount (a : StatAcc) (f : RoadFeature) :
    (statStep a f).incomeCount =
      a.incomeCount +
        (if qTruthy f.properties.MEDIAN_INCOME || qTruthy f.properties.median_incomeE then
          1 else 0) := by
  simp [statStep, statStepCounts_eq, statStepLength_eq, statStepNeighborhood_eq,
    statStepIncome_eq, statStepPopulation_eq, statStepBikeCommute_eq, statStepEducation_eq]

theorem statStep_totalPopulation (a : StatAcc) (f : RoadFeature) :
    (statStep a f).totalPopulation =
      a.totalPopulation +
        (if qTruthy f.properties.POPULATION || qTruthy f.properties.populationE then
          qSel f.properties.POPULATION f.properties.populationE 0 else 0) := by
  simp [statStep, statStepCounts_eq, statStepLength_eq, statStepNeighborhood_eq,
    statStepIncome_eq, statStepPopulation_eq, statStepBikeCommute_eq, statStepEducation_eq]

theorem statStep_populationCount (a : StatAcc) (f : RoadFeature) :
    (statStep a f).populationCount =
      a.populationCount +
        (if qTruthy f.properties.POPULATION || qTruthy f.properties.populationE then
          1 else 0) := by
  simp [statStep, statStepCounts_eq, statStepLength_eq, statStepNeighborhood_eq,
    statStepIncome_eq, statStepPopulation_eq, statStepBikeCommute_eq, statStepEducation_eq]

theorem statStep_totalBikeCommute (a : StatAcc) (f : RoadFeature) :
    (statStep a f).totalBikeCommute =
      a.totalBikeCommute +
        (if qTruthy f.properties.BIKE_COMMUTE || qTruthy f.properties.commute_bicycleE then
          qSel f.properties.BIKE_COMMUTE f.properties.commute_bicycleE 0 else 0) := by
  simp [statStep, statStepCounts_eq, statStepLength_eq, statStepNeighborhood_eq,
    statStepIncome_eq, statStepPopulation_eq, statStepBikeCommute_eq, statStepEducation_eq]

theorem statStep_bikeCommuteCount (a : StatAcc) (f : RoadFeature) :
    (statStep a f).bikeCommuteCount =
      a.bikeCommuteCount +
        (if qTruthy f.properties.BIKE_COMMUTE || qTruthy f.properties.commute_bicycleE then
          1 else 0) := by
  simp [statStep, statStepCounts_eq, statStepLength_eq, statStepNeighborhood_eq,
    statStepIncome_eq, statStepPopulation_eq, statStepBikeCommute_eq, statStepEducation_eq]

theorem statStep_totalEducation (a : StatAcc) (f : RoadFeature) :
    (statStep a f).totalEducation =
      a.totalEducation +
        (if qTruthy f.properties.EDUCATION || qTruthy f.properties.edu_bachelors_plusE then
          qSel f.properties.EDUCATION f.properties.edu_bachelors_plusE 0 else 0) := by
  simp [statStep, statStepCounts_eq, statStepLength_eq, statStepNeighborhood_eq,
    statStepIncome_eq, statStepPopulation_eq, statStepBikeCommute_eq, statStepEducation_eq]

theorem statStep_educationCount (a : StatAcc) (f : RoadFeature) :
    (statStep a f).educationCount =
      a.educationCount +
        (if qTruthy f.properties.EDUCATION || qTruthy f.properties.edu_bachelors_plusE then
          1 else 0) := by
  simp [statStep, statStepCounts_eq, statStepLength_eq, statStepNeighborhood_eq,
    statStepIncome_eq, statStepPopulation_eq, statStepBikeCommute_eq, statStepEducation_eq]

theorem foldl_statStep_totalRoadLength (roads : List RoadFeature) (a : StatAcc) :
    (roads.foldl statStep a).totalRoadLength =
      a.totalRoadLength + condSum roads segLenTruthy segLenOf := by
  induction roads generalizing a with
  | nil => simp [condSum]
  | cons f l ih =>
      rw [List.foldl_cons, ih, statStep_totalRoadLength, condSum_cons]
      ring

theorem foldl_statStep_bikePathLength (roads : List RoadFeature) (a : StatAcc) :
    (roads.foldl statStep a).bikePathLength =
      a.bikePathLength +
        condSum roads (fun p => segLenTruthy p && bikeFacilityCounts p) segLenOf := by
  induction roads generalizing a with
  | nil => simp [condSum]
  | cons f l ih =>
      rw [List.foldl_cons, ih, statStep_bikePathLength, condSum_cons]
      ring

theorem foldl_statStep_totalIncome (roads : List RoadFeature) (a : StatAcc) :
    (roads.foldl statStep a).totalIncome =
      a.totalIncome +
        condSum roads (fun p => qTruthy p.MEDIAN_INCOME || qTruthy p.median_incomeE)
          (fun p => qSel p.MEDIAN_INCOME p.median_incomeE 0) := by
  induction roads generalizing a with
  | nil => simp [condSum]
  | cons f l ih =>
      rw [List.foldl_cons, ih, statStep_totalIncome, condSum_cons]
      ring

theorem foldl_statStep_incomeCount (roads : List RoadFeature) (a : StatAcc) :
    (roads.foldl statStep a).incomeCount =
      a.incomeCount +
        condLen roads (fun p => qTruthy p.MEDIAN_INCOME || qTruthy p.median_incomeE) := by
  induction roads generalizing a with
  | nil => simp [condLen]
  | cons f l ih =>
      rw [List.foldl_cons, ih, statStep_incomeCount, condLen_cons]
      ring

theorem foldl_statStep_totalPopulation (roads : List RoadFeature) (a : StatAcc) :
    (roads.foldl statStep a).totalPopulation =
      a.totalPopulation +
        condSum roads (fun p => qTruthy p.POPULATION || qTruthy p.populationE)
          (fun p => qSel p.POPULATION p.populationE 0) := by
  induction roads generalizing a with
  | nil => simp [condSum]
  | cons f l ih =>
      rw [List.foldl_cons, ih, statStep_totalPopulation, condSum_cons]
      ring

theorem foldl_statStep_populationCount (roads : List RoadFeature) (a : StatAcc) :
    (roads.foldl statStep a).populationCount =
      a.populationCount +
        condLen roads (fun p => qTruthy p.POPULATION || qTruthy p.populationE) := by
  induction roads generalizing a with
  | nil => simp [condLen]
  | cons f l ih =>
      rw [List.foldl_cons, ih, statStep_populationCount, condLen_cons]
      ring

theorem foldl_statStep_totalBikeCommute (roads : List RoadFeature) (a : StatAcc) :
    (roads.foldl statStep a).totalBikeCommute =
      a.totalBikeCommute +
        condSum roads (fun p => qTruthy p.BIKE_COMMUTE || qTruthy p.commute_bicycleE)
          (fun p => qSel p.BIKE_COMMUTE p.commute_bicycleE 0) := by
  induction roads generalizing a with
  | nil => simp [condSum]
  | cons f l ih =>
      rw [List.foldl_cons, ih, statStep_totalBikeCommute, condSum_cons]
      ring

theorem foldl_statStep_bikeCommuteCount (roads : List RoadFeature) (a : StatAcc) :
    (roads.foldl statStep a).bikeCommuteCount =
      a.bikeCommuteCount +
        condLen roads (fun p => qTruthy p.BIKE_COMMUTE || qTruthy p.commute_bicycleE) := by
  induction roads generalizing a with
  | nil => simp [condLen]
  | cons f l ih =>
      rw [List.foldl_cons, ih, statStep_bikeCommuteCount, condLen_cons]
      ring

theorem foldl_statStep_totalEducation (roads : List RoadFeature) (a : StatAcc) :
    (roads.foldl statStep a).totalEducation =
      a.totalEducation +
        condSum roads (fun p => qTruthy p.EDUCATION || qTruthy p.edu_bachelors_plusE)
          (fun p => qSel p.EDUCATION p.edu_bachelors_plusE 0) := by
  induction roads generalizing a with
  | nil => simp [condSum]
  | cons f l ih =>
      rw [List.foldl_cons, ih, statStep_totalEducation, condSum_cons]
      ring

theorem foldl_statStep_educationCount (roads : List RoadFeature) (a : StatAcc) :
    (roads.foldl statStep a).educationCount =
      a.educationCount +
        condLen roads (fun p => qTruthy p.EDUCATION || qTruthy p.edu_bachelors_plusE) := by
  induction roads generalizing a with
  | nil => simp [condLen]
  | cons f l ih =>
      rw [List.foldl_cons, ih, statStep_educationCount, condLen_cons]
      ring

/-- Total road length as accumulated by the source: sum of the resolved
lengths of the segments with a truthy length. -/
def totalSegmentLength (roads : List RoadFeature) : ℚ :=
  condSum roads segLenTruthy segLenOf

/-- Bike-path length as accumulated by the source: sum of the resolved lengths
of the segments with a truthy length whose resolved facility is truthy and
neither `"None"` nor `"NA"`. -/
def bikeFacilityLength (roads : List RoadFeature) : ℚ :=
  condSum roads (fun p => segLenTruthy p && bikeFacilityCounts p) segLenOf

/-- Follows the claim wording of C4 for comparison with the source: coverage is
`round(100 × (sum of lengths whose facility is not in {None, Unknown, empty}) /
(total segment length))`, 0 when the total is 0. -/
def specBikeLaneCoverage (roads : List RoadFeature) : ℤ :=
  let segLen : RoadFeature → ℚ := fun f =>
    qSel f.properties.SEG_LEN f.properties.segment_length 0
  let total := (roads.map segLen).sum
  let bike := ((roads.filter fun f =>
    !(["None", "Unknown", ""].contains
      (sSel f.properties.BIKE_FT f.properties.bike_facility_type ""))).map segLen).sum
  if total = 0 then 0 else jsRound (bike / total * 100)

/-- The concrete segment of the C4 counterexample: length 1, facility
`"Unknown"`. -/
def roadC4cex : RoadFeature :=
  { properties := { SEG_LEN := some 1, BIKE_FT := some "Unknown" } }

/-- C4 counterexample: on a single segment of length 1 with facility
`"Unknown"`, the source counts the segment as a bike lane and reports 100,
while the claim (which excludes `"Unknown"`) demands 0. -/
theorem claim_C4_counterexample :
    (calculateStatistics [roadC4cex]).bikeLaneCoverage = 100 ∧
    specBikeLaneCoverage [roadC4cex] = 0 := by
  have h1 : ("Unknown" : String) ≠ "" := by decide
  have h2 : ("Unknown" : String) ≠ "None" := by decide
  have h3 : ("Unknown" : String) ≠ "NA" := by decide
  constructor
  · norm_num [h1, h2, h3, calculateStatistics, roadC4cex, statStep, statStepCounts,
      statStepLength, statStepNeighborhood, statStepIncome, statStepPopulation,
      statStepBikeCommute, statStepEducation, segLenTruthy, segLenOf,
      bikeFacilityCounts, bikeFacilityOf, qTruthy, sTruthy, qSel, sSel, jsRound,
      accuracyAcc, mostActiveOf, assocAdd, List.foldl_cons, List.foldl_nil,
      List.filter_cons, List.filter_nil, List.map_cons, List.map_nil,
      List.sum_cons, List.sum_nil]
  · norm_num [h1, h2, h3, specBikeLaneCoverage, roadC4cex, qSel, sSel, qTruthy,
      sTruthy, jsRound, List.filter_cons, List.filter_nil, List.map_cons,
      List.map_nil, List.sum_cons, List.sum_nil, List.contains_cons]

/-- C4 (corrected): bike-lane coverage is
`round(100 × bikeFacilityLength / totalSegmentLength)` and 0 when the total
length is 0, where the excluded facility set is {empty/absent, "None", "NA"}
— the source excludes `"NA"`, not `"Unknown"`, so `"Unknown"` counts toward
coverage. -/
theorem claim_C4_bikeLaneCoverage (roads : List RoadFeature) :
    (calculateStatistics roads).bikeLaneCoverage =
      if totalSegmentLength roads = 0 then 0
      else jsRound (bikeFacilityLength roads / totalSegmentLength roads * 100) := by
  have ht : (roads.foldl statStep {}).totalRoadLength = totalSegmentLength roads := by
    rw [foldl_statStep_totalRoadLength]
    simp [totalSegmentLength]
  have hb : (roads.foldl statStep {}).bikePathLength = bikeFacilityLength roads := by
    rw [foldl_statStep_bikePathLength]
    simp [bikeFacilityLength]
  simp only [calculateStatistics]
  rw [ht, hb]
  by_cases h : totalSegmentLength roads = 0 <;> simp [h]

/-- The rounded mean of `val` over the features satisfying `cond`, 0 when no
feature qualifies: the shape of every demographic average in the source. -/
def truthyMean (roads : List RoadFeature) (cond : RoadProps → Bool)
    (val : RoadProps → ℚ) : ℤ :=
  if 0 < condLen roads cond then
    jsRound (condSum roads cond val / (condLen roads cond : ℚ))
  else 0

/-- C8 (confirmed): each of the four demographic averages is the rounded mean
taken only over segments whose resolved field (primary name or alias) is
present and truthy; a segment whose field is 0 or absent is excluded from both
the sum and the denominator, because it fails the truthiness filter. -/
theorem claim_C8_truthy_means (roads : List RoadFeature) :
    (calculateStatistics roads).averageIncome =
      truthyMean roads (fun p => qTruthy p.MEDIAN_INCOME || qTruthy p.median_incomeE)
        (fun p => qSel p.MEDIAN_INCOME p.median_incomeE 0) ∧
    (calculateStatistics roads).averagePopulation =
      truthyMean roads (fun p => qTruthy p.POPULATION || qTruthy p.populationE)
        (fun p => qSel p.POPULATION p.populationE 0) ∧
    (calculateStatistics roads).averageBikeCommute =
      truthyMean roads (fun p => qTruthy p.BIKE_COMMUTE || qTruthy p.commute_bicycleE)
        (fun p => qSel p.BIKE_COMMUTE p.commute_bicycleE 0) ∧
    (calculateStatistics roads).averageEducation =
      truthyMean roads (fun p => qTruthy p.EDUCATION || qTruthy p.edu_bachelors_plusE)
        (fun p => qSel p.EDUCATION p.edu_bachelors_plusE 0) := by
  refine ⟨?_, ?_, ?_, ?_⟩
  · simp only [calculateStatistics, truthyMean]
    rw [foldl_statStep_totalIncome, foldl_statStep_incomeCount]
    simp
  · simp only [calculateStatistics, truthyMean]
    rw [foldl_statStep_totalPopulation, foldl_statStep_populationCount]
    simp
  · simp only [calculateStatistics, truthyMean]
    rw [foldl_statStep_totalBikeCommute, foldl_statStep_bikeCommuteCount]
    simp
  · simp only [calculateStatistics, truthyMean]
    rw [foldl_statStep_totalEducation, foldl_statStep_educationCount]
    simp

/-- C9 (confirmed): when the primary road fetch and the backup path both fail,
the road loader resolves with the built-in non-empty default collection
(never rejecting), and the overall `initData` pipeline still resolves
(`Except.ok`) — one loader's failure does not abort initialization. -/
theorem claim_C9_loader_fallback (env : FetchEnv) (rnd : ℕ → ℚ) (s0 : DataState)
    (hinit : s0.isInitialized = false)
    (hp : env.roadPrimary = none) (hb : env.roadBackup = none) :
    loadRoadNetworkData env = defaultRoadNetworkData ∧
    defaultRoadNetworkData ≠ [] ∧
    ∃ st, initData env rnd s0 = Except.ok st := by
  refine ⟨?_, by simp [defaultRoadNetworkData], ?_⟩
  · unfold loadRoadNetworkData
    rw [hp, hb]
  · unfold initData
    rw [hinit]
    exact ⟨_, rfl⟩

/-- C9 witness: the all-failing environment with the pristine initial store. -/
theorem claim_C9_witness :
    loadRoadNetworkData {} = defaultRoadNetworkData ∧
    defaultRoadNetworkData ≠ [] ∧
    ∃ st, initData {} (fun _ => (1 : ℚ)/2) initialDataState = Except.ok st :=
  claim_C9_loader_fallback {} (fun _ => (1 : ℚ)/2) initialDataState rfl rfl rfl

/-- `qTruthy v = true` unpacked. -/
theorem qTruthy_eq_true (v : Option ℚ) :
    qTruthy v = true ↔ ∃ w, v = some w ∧ w ≠ 0 := by
  cases v <;> simp [qTruthy]

/-- `sTruthy v = true` unpacked. -/
theorem sTruthy_eq_true (v : Option String) :
    sTruthy v = true ↔ ∃ s, v = some s ∧ s ≠ "" := by
  cases v <;> simp [sTruthy]

/-- The synthetic filler `Math.floor(r * 80) + 20` lies in `[20, 99]` whenever
`r` is a `Math.random()` value, i.e. `0 ≤ r < 1`. -/
theorem filler_bounds (r : ℚ) (h0 : 0 ≤ r) (h1 : r < 1) :
    20 ≤ ((⌊r * 80⌋ + 20 : ℤ) : ℚ) ∧ ((⌊r * 80⌋ + 20 : ℤ) : ℚ) ≤ 99 := by
  have hf0 : (0 : ℤ) ≤ ⌊r * 80⌋ := Int.floor_nonneg.mpr (by positivity)
  have hf1 : ⌊r * 80⌋ < 80 := by
    apply Int.floor_lt.mpr
    push_cast
    nlinarith
  constructor
  · exact_mod_cast (by omega : (20 : ℤ) ≤ ⌊r * 80⌋ + 20)
  · exact_mod_cast (by omega : ⌊r * 80⌋ + 20 ≤ (99 : ℤ))

/-- Every updated counter feature carries `COUNT = OBSERVED_COUNT = some c`
with `c ≠ 0`, provided the random draw is in `[0, 1)`. -/
theorem updateCounterFeature_spec (m : String → Option ℚ) (r : ℚ)
    (h0 : 0 ≤ r) (h1 : r < 1) (f : CounterFeature) :
    ∃ c : ℚ, (updateCounterFeature m r f).properties.COUNT = some c ∧
      (updateCounterFeature m r f).properties.OBSERVED_COUNT = some c ∧ c ≠ 0 := by
  cases hg : (sTruthy (jsOrS f.properties.SUBBLOCKKEY f.properties.Site_Nm) &&
      qTruthy (m ((jsOrS f.properties.SUBBLOCKKEY f.properties.Site_Nm).getD ""))) with
  | true =>
      obtain ⟨hg1, hg2⟩ := Bool.and_eq_true_iff.mp hg
      rcases (qTruthy_eq_true _).mp hg2 with ⟨w, hw, hw0⟩
      have hqw : qTruthy (some w) = true := by rw [← hw]; exact hg2
      refine ⟨w, ?_, ?_, hw0⟩ <;> simp [updateCounterFeature, hg1, hqw, hw]
  | false =>
      have hng : ¬(sTruthy (jsOrS f.properties.SUBBLOCKKEY f.properties.Site_Nm) = true ∧
          qTruthy (m ((jsOrS f.properties.SUBBLOCKKEY f.properties.Site_Nm).getD "")) = true) := by
        rw [← Bool.and_eq_true_iff]
        simp [hg]
      cases hc : qTruthy f.properties.COUNT with
      | true =>
          rcases (qTruthy_eq_true _).mp hc with ⟨w, hw, hw0⟩
          have hqw : qTruthy (some w) = true := by rw [← hw]; exact hc
          refine ⟨w, ?_, ?_, hw0⟩ <;> simp [updateCounterFeature, hng, hqw, hw]
      | false =>
          refine ⟨((⌊r * 80⌋ + 20 : ℤ) : ℚ), ?_, ?_, ?_⟩
          · simp [updateCounterFeature, hng, hc]
          · simp [updateCounterFeature, hng, hc]
          · have h20 := (filler_bounds r h0 h1).1
            intro hzero
            rw [hzero] at h20
            norm_num at h20

/-- On the unmatched, untruthy-`COUNT` path, the update writes the synthetic
filler into both count fields. -/
theorem updateCounterFeature_else (m : String → Option ℚ) (r : ℚ) (f : CounterFeature)
    (hg : (sTruthy (jsOrS f.properties.SUBBLOCKKEY f.properties.Site_Nm) &&
      qTruthy (m ((jsOrS f.properties.SUBBLOCKKEY f.properties.Site_Nm).getD ""))) = false)
    (hc : qTruthy f.properties.COUNT = false) :
    updateCounterFeature m r f =
      { properties := { f.properties with
          COUNT := some ((⌊r * 80⌋ + 20 : ℤ) : ℚ)
          OBSERVED_COUNT := some ((⌊r * 80⌋ + 20 : ℤ) : ℚ) } } := by
  have hng : ¬(sTruthy (jsOrS f.properties.SUBBLOCKKEY f.properties.Site_Nm) = true ∧
      qTruthy (m ((jsOrS f.properties.SUBBLOCKKEY f.properties.Site_Nm).getD "")) = true) := by
    rw [← Bool.and_eq_true_iff]
    simp [hg]
  simp [updateCounterFeature, hng, hc]

/-- Positional description of the counter-update `forEach`: element `i` of the
output is the update of element `i` of the input, drawn at random index
`n + i`. -/
theorem updateCounterFeatures_get? (m : String → Option ℚ) (rnd : ℕ → ℚ)
    (n : ℕ) (l : List CounterFeature) (i : ℕ) :
    (updateCounterFeatures m rnd n l).get? i =
      (l.get? i).map fun f => updateCounterFeature m (rnd (n + i)) f := by
  induction l generalizing n i with
  | nil => simp [updateCounterFeatures]
  | cons f rest ih =>
      cases i with
      | zero => simp [updateCounterFeatures]
      | succ j =>
          have he : n + (j + 1) = (n + 1) + j := by omega
          simp only [updateCounterFeatures, List.get?]
          rw [he, ih (n + 1) j]

/-- Membership form: every feature of the updated list satisfies the
count-invariant. -/
theorem updateCounterFeatures_mem (m : String → Option ℚ) (rnd : ℕ → ℚ)
    (hr : ∀ i, 0 ≤ rnd i ∧ rnd i < 1) (n : ℕ) (l : List CounterFeature) :
    ∀ g ∈ updateCounterFeatures m rnd n l,
      ∃ c : ℚ, g.properties.COUNT = some c ∧
        g.properties.OBSERVED_COUNT = some c ∧ c ≠ 0 := by
  induction l generalizing n with
  | nil => simp [updateCounterFeatures]
  | cons f rest ih =>
      intro g hg
      simp only [updateCounterFeatures, List.mem_cons] at hg
      rcases hg with rfl | hg
      · exact updateCounterFeature_spec m (rnd n) (hr n).1 (hr n).2 f
      · exact ih (n + 1) g hg

/-- C10 (confirmed): after the counter-update step, every feature has `COUNT`
and `OBSERVED_COUNT` defined, equal and nonzero; and a feature matched by
neither its segment key nor its site name, with no truthy prior `COUNT`, gets
the synthetic filler, which always lies in `[20, 99]` when every random draw
is in `[0, 1)`. -/
theorem claim_C10_counter_update (rows : List PredRow) (counters : List CounterFeature)
    (rnd : ℕ → ℚ) (hr : ∀ i, 0 ≤ rnd i ∧ rnd i < 1) :
    (∀ g ∈ updateCounterPointsWithObservedData rows counters rnd,
      ∃ c : ℚ, g.properties.COUNT = some c ∧
        g.properties.OBSERVED_COUNT = some c ∧ c ≠ 0) ∧
    (∀ i f, counters.get? i = some f →
      (∀ s, f.properties.SUBBLOCKKEY = some s →
        qTruthy (observedCountMap rows s) = false) →
      (∀ s, f.properties.Site_Nm = some s →
        qTruthy (observedCountMap rows s) = false) →
      qTruthy f.properties.COUNT = false →
      ∃ c : ℚ, (updateCounterPointsWithObservedData rows counters rnd).get? i =
          some { properties := { f.properties with
            COUNT := some c, OBSERVED_COUNT := some c } } ∧
        20 ≤ c ∧ c ≤ 99) := by
  constructor
  · exact updateCounterFeatures_mem (observedCountMap rows) rnd hr 0 counters
  · intro i f hget h1 h2 h3
    have hkey : (sTruthy (jsOrS f.properties.SUBBLOCKKEY f.properties.Site_Nm) &&
        qTruthy (observedCountMap rows
          ((jsOrS f.properties.SUBBLOCKKEY f.properties.Site_Nm).getD ""))) = false := by
      cases hs : sTruthy f.properties.SUBBLOCKKEY with
      | true =>
          rcases (sTruthy_eq_true _).mp hs with ⟨s, hsome, _⟩
          have hs2 : sTruthy (some s) = true := by rw [← hsome]; exact hs
          simp [jsOrS, hsome, hs2, h1 s hsome]
      | false =>
          cases ht : sTruthy f.properties.Site_Nm with
          | true =>
              rcases (sTruthy_eq_true _).mp ht with ⟨s, hsome, _⟩
              have ht2 : sTruthy (some s) = true := by rw [← hsome]; exact ht
              simp [jsOrS, hs, hsome, ht2, h2 s hsome]
          | false => simp [jsOrS, hs, ht]
    refine ⟨((⌊rnd i * 80⌋ + 20 : ℤ) : ℚ), ?_, filler_bounds (rnd i) (hr i).1 (hr i).2⟩
    unfold updateCounterPointsWithObservedData
    rw [updateCounterFeatures_get?, hget]
    simp only [Nat.zero_add, Option.map_some']
    rw [updateCounterFeature_else (observedCountMap rows) (rnd i) f hkey h3]

/-- C10 witness: one counter feature with no key, no site name and no prior
count, with the random oracle fixed at 1/2, yields the filler 60 — inside
[20, 99]. -/
theorem claim_C10_witness :
    ∃ c : ℚ, (updateCounterPointsWithObservedData [] [{ properties := {} }]
        (fun _ => (1 : ℚ)/2)).get? 0 =
      some { properties := { COUNT := some c, OBSERVED_COUNT := some c } } ∧
      20 ≤ c ∧ c ≤ 99 := by
  obtain ⟨_, h2⟩ := claim_C10_counter_update [] [{ properties := {} }]
    (fun _ => (1 : ℚ)/2) (by intro i; norm_num)
  obtain ⟨c, hc, hb⟩ := h2 0 { properties := {} } rfl
    (by intro s hs; simp at hs) (by intro s hs; simp at hs) rfl
  exact ⟨c, hc, hb⟩
